import Mathlib

/-!
Verification development for the hive agent-execution runtime.

We shallowly embed the Python sources of the repository (graph executor,
worker/action dispatcher, MCP client, test harness, builder query, JSON
extraction helper) as executable Lean definitions and prove properties of
the embedding.  Python values are modelled by the inductive type `Val`,
Python `dict`s by insertion-ordered association lists with overwrite
semantics, and Python strings by `String` (or `List Char` in the
character-level JSON-extraction section).

Modules of the repository that are referenced but absent from the source
tree (`framework/graph/node.py`, `framework/graph/edge.py`,
`framework/graph/plan.py`, `framework/runtime/core.py`,
`framework/schemas/*`, `framework/testing/test_result.py`, and the
standard-library `json.loads`) are modelled from the specification; every
such definition carries a doc comment starting with `Modelled from the
spec:`.
-/

/-- A Python value: `None`, booleans, integers, strings, lists and
(insertion-ordered) dicts.  Numbers are restricted to integers in this
model. -/
inductive Val where
  | vnone : Val
  | vbool : Bool → Val
  | vint : Int → Val
  | vstr : String → Val
  | vlist : List Val → Val
  | vdict : List (String × Val) → Val

/-- Python dicts over string keys, as insertion-ordered association lists. -/
abbrev PyDict := List (String × Val)

/-- `d[k]` lookup: first (and only, under the `dset` discipline) binding. -/
def dget (d : PyDict) (k : String) : Option Val :=
  match d with
  | [] => none
  | (k', v) :: rest => if k' = k then some v else dget rest k

/-- `d.get(k, default)`. -/
def dgetD (d : PyDict) (k : String) (dflt : Val) : Val :=
  (dget d k).getD dflt

/-- `k in d`. -/
def dhas (d : PyDict) (k : String) : Bool :=
  (dget d k).isSome

/-- `d[k] = v`: overwrite in place if the key exists, else append
(Python dicts preserve insertion order). -/
def dset (d : PyDict) (k : String) (v : Val) : PyDict :=
  match d with
  | [] => [(k, v)]
  | (k', v') :: rest => if k' = k then (k', v) :: rest else (k', v') :: dset rest k v

/-- `{**a, **b}`: keys of `a` in order with `b` overriding, then the new
keys of `b` in insertion order. -/
def dmerge (a b : PyDict) : PyDict :=
  b.foldl (fun acc kv => dset acc kv.1 kv.2) a

/-- Python truthiness of a value (used where the code stores an arbitrary
value in a boolean position). -/
def truthy : Val → Bool
  | Val.vnone => false
  | Val.vbool b => b
  | Val.vint n => n ≠ 0
  | Val.vstr s => s ≠ ""
  | Val.vlist xs => !xs.isEmpty
  | Val.vdict xs => !xs.isEmpty

/-- Coerce a value expected to be a dict (defaulting to `{}` otherwise,
matching the dataclass field type `dict`). -/
def toDict : Val → PyDict
  | Val.vdict d => d
  | _ => []

/- ===================================================================
   Worker node (`framework/graph/worker_node.py`)
   =================================================================== -/

/-- Modelled from the spec: `ActionType` of the missing
`framework/graph/plan.py` — the five action kinds of §4.5. -/
inductive ActionType where
  | llm_call | tool_use | sub_graph | function | code_execution
deriving DecidableEq

/-- The wire string of an action type (`action_type.value`). -/
def ActionType.value : ActionType → String
  | .llm_call => "llm_call"
  | .tool_use => "tool_use"
  | .sub_graph => "sub_graph"
  | .function => "function"
  | .code_execution => "code_execution"

/-- Modelled from the spec: `ActionSpec` of the missing
`framework/graph/plan.py` (§4.5): the per-kind parameters of one action. -/
structure ActionSpec where
  action_type : ActionType
  prompt : Option String := none
  system_prompt : Option String := none
  tool_name : Option String := none
  tool_args : PyDict := []
  graph_id : Option String := none
  function_name : Option String := none
  function_args : PyDict := []
  code : Option String := none

/-- Modelled from the spec: `PlanStep` of the missing
`framework/graph/plan.py` (§4.5): id, description, action, inputs,
expected outputs and dependencies. -/
structure PlanStep where
  id : String
  description : String
  action : ActionSpec
  inputs : PyDict := []
  expected_outputs : List String := []
  dependencies : List String := []

/-- `StepExecutionResult` (worker_node.py), typed after the dataclass
annotations. -/
structure StepExecutionResult where
  success : Bool
  outputs : PyDict := []
  error : Option String := none
  error_type : Option String := none
  tokens_used : Nat := 0
  latency_ms : Nat := 0
  executor_type : String := ""

/-- Modelled from the spec: an event recorded in the `Runtime` decision
log of the missing `framework/runtime/core.py` (§4.2).  `decide` opens a
decision (intent, options as (id, description) pairs, chosen id,
reasoning); `outcome` closes one (decision id, success, the `result`
argument, the `error` argument, tokens, latency); `problem` appends a
Problem (severity, description, suggested fix). -/
inductive REvent where
  | decide (intent : String) (options : List (String × String)) (chosen : String)
      (reasoning : String)
  | outcome (decision_id : Nat) (success : Bool) (result : Option Val)
      (error : Option String) (tokens_used : Nat) (latency_ms : Nat)
  | problem (severity : String) (description : String) (suggested_fix : Option String)

/-- The injected behaviours a `WorkerNode` dispatches to.  A registered
function takes the (merged, resolved) argument dict and either raises
(`Except.error` with the exception text) or returns a value.  The LLM
provider returns content plus token counts.  The tool executor returns
`(is_error, content)` for a `ToolUse`.  The sub-graph executor returns a
miniature `ExecutionResult` (success, output, error, total_tokens).  The
sandbox returns `(success, result, variables, error, execution_time_ms)`.
`elapsed_ms` stands for the wall-clock latency the code measures around a
dispatch. -/
structure WorkerCfg where
  functions : String → Option (PyDict → Except String Val)
  tools : List String := []
  tool_executor : Option (String → PyDict → Except String (Bool × String)) := none
  llm : Option (String → Except String (String × Nat × Nat)) := none
  sub_graph_executor : Option (String → PyDict → Except String (Bool × PyDict × Option String × Nat)) := none
  sandbox : String → PyDict → (Bool × Val × PyDict × Option String × Nat) :=
    fun _ _ => (false, Val.vnone, [], some "No sandbox", 0)
  elapsed_ms : Nat := 0

/-- `WorkerNode._resolve_inputs`: a string input starting with `$` is
replaced by `context[name]` when present, else kept literal. -/
def resolve_inputs (inputs : PyDict) (context : PyDict) : PyDict :=
  inputs.map (fun kv =>
    match kv.2 with
    | Val.vstr s =>
        if s.startsWith "$" then
          (kv.1, (dget context (s.drop 1)).getD (Val.vstr s))
        else kv
    | _ => kv)

/-- The second-pass `$` resolution of `_execute_tool_use`: references are
resolved from the merged argument map itself. -/
def resolve_from_self (args : PyDict) : PyDict :=
  args.map (fun kv =>
    match kv.2 with
    | Val.vstr s =>
        if s.startsWith "$" then
          (kv.1, (dget args (s.drop 1)).getD (Val.vstr s))
        else kv
    | _ => kv)

/-- `WorkerNode._execute_function` (worker_node.py lines 503–551): the
result of a registered function is always wrapped as `{"result": value}`
with `success=True`; a raised exception becomes a failed result with
`error_type="function_exception"`. -/
def execute_function (cfg : WorkerCfg) (action : ActionSpec) (inputs : PyDict) :
    StepExecutionResult :=
  match action.function_name with
  | none =>
      { success := false, error := some "No function name specified",
        error_type := some "invalid_action", executor_type := "function" }
  | some func_name =>
      match cfg.functions func_name with
      | none =>
          { success := false,
            error := some ("Function '" ++ func_name ++ "' not registered"),
            error_type := some "missing_function", executor_type := "function" }
      | some func =>
          let args := dmerge action.function_args inputs
          match func args with
          | Except.ok result =>
              { success := true, outputs := [("result", result)],
                executor_type := "function" }
          | Except.error e =>
              { success := false, error := some e,
                error_type := some "function_exception", executor_type := "function" }

/-- The JSON-unpacking step of `_execute_tool_use` on a successful formal
tool call: parse `result.content` as JSON and, when it is a dict, spread
its top-level keys into the outputs next to `result`.  The JSON parse is
abstracted by the caller passing the parsed form (if any). -/
def tool_outputs (content : String) (parsed : Option Val) : PyDict :=
  let outputs : PyDict := [("result", Val.vstr content)]
  match parsed with
  | some (Val.vdict d) => dmerge outputs d
  | _ => outputs

/-- `WorkerNode._execute_tool_use` (worker_node.py lines 332–458) without
the formal-tool JSON unpack (the registered-function fast path, which is
the part claims C4/C5 exercise; the formal `Tool` registry path is kept
but its JSON re-parse of string content is reduced to the raw `result`
field, as for non-JSON content).  A registered function whose return
value is a dict containing a `success` key has that shape preserved. -/
def execute_tool_use (cfg : WorkerCfg) (action : ActionSpec) (inputs : PyDict) :
    StepExecutionResult :=
  match action.tool_name with
  | none =>
      { success := false, error := some "No tool name specified",
        error_type := some "invalid_action", executor_type := "tool_use" }
  | some tool_name =>
      let args := resolve_from_self (dmerge action.tool_args inputs)
      match cfg.functions tool_name with
      | some func =>
          (match func args with
           | Except.ok result =>
               match result with
               | Val.vdict d =>
                   if dhas d "success" then
                     { success := truthy (dgetD d "success" (Val.vbool false)),
                       outputs := toDict (dgetD d "outputs" (Val.vdict [])),
                       error := (dget d "error").bind (fun v =>
                         match v with
                         | Val.vstr s => some s
                         | _ => none),
                       error_type := (dget d "error_type").bind (fun v =>
                         match v with
                         | Val.vstr s => some s
                         | _ => none),
                       executor_type := "tool_use" }
                   else
                     { success := true, outputs := [("result", result)],
                       executor_type := "tool_use" }
               | _ =>
                   { success := true, outputs := [("result", result)],
                     executor_type := "tool_use" }
           | Except.error e =>
               { success := false, error := some e,
                 error_type := some "tool_exception", executor_type := "tool_use" })
      | none =>
          if tool_name ∉ cfg.tools then
            { success := false,
              error := some ("Tool '" ++ tool_name ++ "' not found"),
              error_type := some "missing_tool", executor_type := "tool_use" }
          else
            match cfg.tool_executor with
            | none =>
                { success := false, error := some "No tool executor configured",
                  error_type := some "configuration", executor_type := "tool_use" }
            | some texec =>
                match texec tool_name args with
                | Except.ok (is_err, content) =>
                    if is_err then
                      { success := false, outputs := [], error := some content,
                        error_type := some "tool_error", executor_type := "tool_use" }
                    else
                      { success := true, outputs := [("result", Val.vstr content)],
                        executor_type := "tool_use" }
                | Except.error e =>
                    { success := false, error := some e,
                      error_type := some "tool_exception", executor_type := "tool_use" }

/-- `WorkerNode._execute_sub_graph`. -/
def execute_sub_graph (cfg : WorkerCfg) (action : ActionSpec) (inputs : PyDict) :
    StepExecutionResult :=
  match cfg.sub_graph_executor with
  | none =>
      { success := false, error := some "No sub-graph executor configured",
        error_type := some "configuration", executor_type := "sub_graph" }
  | some sg =>
      match action.graph_id with
      | none =>
          { success := false, error := some "No graph ID specified",
            error_type := some "invalid_action", executor_type := "sub_graph" }
      | some gid =>
          match sg gid inputs with
          | Except.ok (succ, output, err, tok) =>
              { success := succ, outputs := if succ then output else [],
                error := if succ then none else err, tokens_used := tok,
                executor_type := "sub_graph" }
          | Except.error e =>
              { success := false, error := some e,
                error_type := some "sub_graph_exception", executor_type := "sub_graph" }

/-- `WorkerNode._execute_code`. -/
def execute_code (cfg : WorkerCfg) (action : ActionSpec) (inputs context : PyDict) :
    StepExecutionResult :=
  match action.code with
  | none =>
      { success := false, error := some "No code specified",
        error_type := some "invalid_action", executor_type := "code_execution" }
  | some code =>
      let code_inputs := dmerge context inputs
      let sres := cfg.sandbox code code_inputs
      if sres.1 then
        { success := true, outputs := dmerge [("result", sres.2.1)] sres.2.2.1,
          executor_type := "code_execution", latency_ms := sres.2.2.2.2 }
      else
        let errTxt := (sres.2.2.2.1.getD "")
        { success := false, error := sres.2.2.2.1,
          error_type := some (if (errTxt.splitOn "Security").length > 1 then "security" else "code_error"),
          executor_type := "code_execution", latency_ms := sres.2.2.2.2 }

/-- `WorkerNode._execute_llm_call` (prompt shaping is folded into the
injected provider behaviour; JSON re-parse of the response is modelled by
the caller-supplied parse in `llm_parse`). -/
def execute_llm_call (cfg : WorkerCfg) (action : ActionSpec) (_inputs : PyDict)
    (llm_parse : String → Option Val) : StepExecutionResult :=
  match cfg.llm with
  | none =>
      { success := false, error := some "No LLM provider configured",
        error_type := some "configuration", executor_type := "llm_call" }
  | some provider =>
      let prompt := action.prompt.getD ""
      match provider prompt with
      | Except.ok (content, tin, tout) =>
          let parsed := llm_parse content
          let result_value := parsed.getD (Val.vstr content)
          { success := true,
            outputs := [("result", result_value), ("response", Val.vstr content),
                        ("parsed_json", parsed.getD Val.vnone)],
            tokens_used := tin + tout, executor_type := "llm_call" }
      | Except.error e =>
          let error_type := if (e.toLower.splitOn "rate").length > 1 then "rate_limit" else "llm_error"
          { success := false, error := some e, error_type := some error_type,
            executor_type := "llm_call" }

/-- `WorkerNode._dispatch`: dispatch on the action kind.  The result is
`Except.error e` when the underlying Python would propagate an exception
out of the dispatch (none of the modelled paths do: each `_execute_*`
catches; the `Except` layer stands for exceptions raised by the runtime
machinery itself, e.g. a non-callable registry entry). -/
def worker_dispatch (cfg : WorkerCfg) (raised : Option String)
    (action : ActionSpec) (inputs context : PyDict)
    (llm_parse : String → Option Val) : Except String StepExecutionResult :=
  match raised with
  | some e => Except.error e
  | none =>
      Except.ok <|
        match action.action_type with
        | ActionType.llm_call => execute_llm_call cfg action inputs llm_parse
        | ActionType.tool_use => execute_tool_use cfg action inputs
        | ActionType.sub_graph => execute_sub_graph cfg action inputs
        | ActionType.function => execute_function cfg action inputs
        | ActionType.code_execution => execute_code cfg action inputs context

/-- The single option recorded by `WorkerNode.execute` for a step: id and
description both derived from the action kind. -/
def step_option (step : PlanStep) : String × String :=
  (step.action.action_type.value,
   "Execute " ++ step.action.action_type.value ++ " action")

/-- `WorkerNode.execute` (worker_node.py lines 145–211): record one
Decision, dispatch, set the measured latency on the result, record exactly
one outcome; a raised exception is converted into a failed
`StepExecutionResult` with `error_type="exception"` and an outcome carrying
the error.  Returns the result together with the runtime events in order. -/
def worker_execute (cfg : WorkerCfg) (raised : Option String) (step : PlanStep)
    (context : PyDict) (llm_parse : String → Option Val) :
    StepExecutionResult × List REvent :=
  let ev0 := REvent.decide ("Execute plan step: " ++ step.description)
      [step_option step] step.action.action_type.value
      ("Step requires " ++ step.action.action_type.value)
  let resolved_inputs := resolve_inputs step.inputs context
  match worker_dispatch cfg raised step.action resolved_inputs context llm_parse with
  | Except.ok result0 =>
      let latency_ms := cfg.elapsed_ms
      let result := { result0 with latency_ms := latency_ms }
      let ev1 := REvent.outcome 0 result.success
          (some (if result.success then Val.vdict result.outputs
                 else (result.error.map Val.vstr).getD Val.vnone))
          none result.tokens_used latency_ms
      (result, [ev0, ev1])
  | Except.error e =>
      let latency_ms := cfg.elapsed_ms
      let ev1 := REvent.outcome 0 false none (some e) 0 latency_ms
      ({ success := false, error := some e, error_type := some "exception",
         latency_ms := latency_ms },
       [ev0, ev1])

/- ===================================================================
   MCP client (`framework/runner/mcp_client.py`)
   =================================================================== -/

/-- A content item of a `tools/call` response, as the stdio SDK surfaces
it: an object with a `text` attribute, one with a `data` attribute, or
some other shape. -/
inductive MContent where
  | text (s : String)
  | data (d : Val)
  | other (v : Val)

/-- The value form of one content item (used when the raw payload is
returned). -/
def mcontentVal : MContent → Val
  | MContent.text s => Val.vdict [("type", Val.vstr "text"), ("text", Val.vstr s)]
  | MContent.data d => Val.vdict [("type", Val.vstr "data"), ("data", d)]
  | MContent.other v => v

/-- `MCPClient._call_tool_stdio_async` (mcp_client.py lines 339–359),
content extraction: a non-empty content list whose first item has a
`text` attribute yields that text; a first item with a `data` attribute
yields the data; otherwise the raw content list; an empty content yields
`None`. -/
def call_tool_stdio (content : List MContent) : Val :=
  match content with
  | [] => Val.vnone
  | item :: _ =>
      match item with
      | MContent.text s => Val.vstr s
      | MContent.data d => d
      | MContent.other _ => Val.vlist (content.map mcontentVal)

/-- `MCPClient._call_tool_http` (mcp_client.py lines 361–387): a JSON-RPC
`error` field raises; otherwise the raw `result.content` payload is
returned unchanged (no text extraction). -/
def call_tool_http (data : PyDict) : Except String Val :=
  if dhas data "error" then
    Except.error ("Failed to call tool via HTTP: Tool execution error: " ++
      (match dget data "error" with
       | some (Val.vstr s) => s
       | _ => ""))
  else
    Except.ok (dgetD (toDict (dgetD data "result" (Val.vdict []))) "content" (Val.vlist []))

/-- Connection state of an `MCPClient`: the `_connected` flag and the
`_tools` cache (tool names discovered at connect time). -/
structure MCPClientState where
  connected : Bool := false
  tools : List String := []

/-- The out-of-process server as the client observes it: the result of
`tools/list` at discovery and the per-call behaviour. -/
structure MCPServerBehavior where
  list_tools : Except String (List String)
  call : String → PyDict → Except String Val

/-- `MCPClient.connect` / `_discover_tools`: a no-op when already
connected; otherwise issues `tools/list`, fills the tool cache and sets
`_connected`.  Returns the new state and the transport requests made. -/
def mcp_connect (srv : MCPServerBehavior) (st : MCPClientState) :
    Except String MCPClientState × List String :=
  if st.connected then (Except.ok st, [])
  else
    match srv.list_tools with
    | Except.ok names => (Except.ok { connected := true, tools := names }, ["tools/list"])
    | Except.error e => (Except.error e, ["tools/list"])

/-- `MCPClient.call_tool` (mcp_client.py lines 317–337): connect if not
connected, raise `ValueError("Unknown tool: …")` when the name is not in
the tool cache (before any per-call transport request), else dispatch by
transport.  Returns the outcome, the client state after the call, and the
transport requests issued. -/
def mcp_call_tool (srv : MCPServerBehavior) (st : MCPClientState)
    (name : String) (args : PyDict) :
    Except String Val × MCPClientState × List String :=
  match mcp_connect srv st with
  | (Except.error e, reqs) => (Except.error e, st, reqs)
  | (Except.ok st1, reqs) =>
      if name ∉ st1.tools then
        (Except.error ("Unknown tool: " ++ name), st1, reqs)
      else
        match srv.call name args with
        | Except.ok v => (Except.ok v, st1, reqs ++ ["tools/call " ++ name])
        | Except.error e => (Except.error e, st1, reqs ++ ["tools/call " ++ name])

/- ===================================================================
   Test harness (`framework/testing/categorizer.py`,
   `framework/testing/executor.py`, `framework/testing/parallel.py`)
   =================================================================== -/

/-- `ErrorCategory` of the missing `framework/testing/test_result.py`;
modelled from the spec: one of logic_error / implementation_error /
edge_case (§3). -/
inductive ErrorCategory where
  | logic_error | implementation_error | edge_case
deriving DecidableEq

/-- Modelled from the spec: `TestResult` of the missing
`framework/testing/test_result.py` (§3, §7): passed flag, duration,
optional error message / stack trace, optional error category (absent by
default, as for any optional dataclass field), and runtime logs as
(level, msg) pairs. -/
structure TestResult where
  test_id : String
  passed : Bool
  duration_ms : Nat := 0
  error_message : Option String := none
  stack_trace : Option String := none
  error_category : Option ErrorCategory := none
  runtime_logs : List (String × String) := []

/-- One token of a compiled (lower-cased) error pattern: a literal, a
`.*` gap, a `\s*` gap, or an optional single character (`:?`). -/
inductive PatTok where
  | lit (s : List Char)
  | star
  | ws
  | opt (c : Char)

/-- Regex-style whitespace (`\s`). -/
def isWsChar (c : Char) : Bool :=
  c = ' ' || c = '\t' || c = '\n' || c = '\r' || c = '\x0b' || c = '\x0c'

/-- Drop a literal prefix, if present. -/
def dropLit : List Char → List Char → Option (List Char)
  | [], s => some s
  | _ :: _, [] => none
  | c :: l, x :: s => if c = x then dropLit l s else none

/-- Backtracking matcher for a pattern anchored at the head of `s`,
fuelled (every step shrinks the pattern or the text, so
`toks.length + s.length + 1` fuel is exact). -/
def matchToksF : Nat → List PatTok → List Char → Bool
  | 0, _, _ => false
  | _ + 1, [], _ => true
  | fuel + 1, PatTok.lit l :: rest, s =>
      match dropLit l s with
      | some s' => matchToksF fuel rest s'
      | none => false
  | fuel + 1, PatTok.star :: rest, s =>
      matchToksF fuel rest s ||
        (match s with
         | [] => false
         | _ :: s' => matchToksF fuel (PatTok.star :: rest) s')
  | fuel + 1, PatTok.ws :: rest, s =>
      matchToksF fuel rest s ||
        (match s with
         | [] => false
         | c :: s' => isWsChar c && matchToksF fuel (PatTok.ws :: rest) s')
  | fuel + 1, PatTok.opt c :: rest, s =>
      (match s with
       | [] => false
       | x :: s' => x = c && matchToksF fuel rest s') ||
      matchToksF fuel rest s

/-- Backtracking matcher anchored at the head of `s`. -/
def matchToks (toks : List PatTok) (s : List Char) : Bool :=
  matchToksF (toks.length + s.length + 1) toks s

/-- `pattern.search(text)`: the pattern matches at some position. -/
def patSearch (toks : List PatTok) : List Char → Bool
  | [] => matchToks toks []
  | c :: s' => matchToks toks (c :: s') || patSearch toks s'

/-- Search over a `String`, lower-cased (the patterns are compiled with
`re.IGNORECASE` and written lower-case here). -/
def searchIn (toks : List PatTok) (text : String) : Bool :=
  patSearch toks (text.toList.map Char.toLower)

/-- Build a literal token from a string. -/
def plit (s : String) : PatTok := PatTok.lit s.toList

/-- `ErrorCategorizer.LOGIC_ERROR_PATTERNS` (categorizer.py lines 25–34). -/
def logic_error_patterns : List (List PatTok) :=
  [ [plit "goal not achieved"],
    [plit "constraint violated", PatTok.opt ':', PatTok.ws, plit "core"],
    [plit "fundamental assumption"],
    [plit "success criteria mismatch"],
    [plit "criteria not met"],
    [plit "expected behavior incorrect"],
    [plit "specification error"],
    [plit "requirement mismatch"] ]

/-- `ErrorCategorizer.IMPLEMENTATION_ERROR_PATTERNS` (categorizer.py
lines 37–58). -/
def implementation_error_patterns : List (List PatTok) :=
  [ [plit "typeerror"],
    [plit "attributeerror"],
    [plit "keyerror"],
    [plit "indexerror"],
    [plit "valueerror"],
    [plit "nameerror"],
    [plit "importerror"],
    [plit "modulenotfounderror"],
    [plit "runtimeerror"],
    [plit "nullpointerexception"],
    [plit "nonetype", PatTok.star, plit "has no attribute"],
    [plit "tool call failed"],
    [plit "node execution error"],
    [plit "agent execution failed"],
    [plit "assertion", PatTok.star, plit "failed"],
    [plit "assertionerror"],
    [plit "expected", PatTok.star, plit "but got"],
    [plit "unexpected", PatTok.star, plit "type"],
    [plit "missing required"],
    [plit "invalid", PatTok.star, plit "argument"] ]

/-- `ErrorCategorizer.EDGE_CASE_PATTERNS` (categorizer.py lines 61–79). -/
def edge_case_patterns : List (List PatTok) :=
  [ [plit "boundary condition"],
    [plit "timeout"],
    [plit "connection", PatTok.star, plit "timeout"],
    [plit "request", PatTok.star, plit "timeout"],
    [plit "unexpected format"],
    [plit "unexpected response"],
    [plit "rare input"],
    [plit "empty", PatTok.star, plit "result"],
    [plit "null", PatTok.star, plit "value"],
    [plit "empty", PatTok.star, plit "response"],
    [plit "no", PatTok.star, plit "results"],
    [plit "rate", PatTok.star, plit "limit"],
    [plit "quota", PatTok.star, plit "exceeded"],
    [plit "retry", PatTok.star, plit "exhausted"],
    [plit "unicode", PatTok.star, plit "error"],
    [plit "encoding", PatTok.star, plit "error"],
    [plit "special", PatTok.star, plit "character"] ]

/-- `ErrorCategorizer._get_error_text`: error message, stack trace and
ERROR/CRITICAL/WARNING log messages, joined with spaces. -/
def get_error_text (r : TestResult) : String :=
  String.intercalate " "
    ((match r.error_message with | some m => [m] | none => []) ++
     (match r.stack_trace with | some t => [t] | none => []) ++
     (r.runtime_logs.filter (fun lg =>
        lg.1 = "ERROR" || lg.1 = "CRITICAL" || lg.1 = "WARNING")).map Prod.snd)

/-- `ErrorCategorizer.categorize` (categorizer.py lines 93–126): `None`
for a passing result; otherwise logic patterns first, then implementation,
then edge case, defaulting to implementation_error. -/
def categorize (r : TestResult) : Option ErrorCategory :=
  if r.passed then none
  else
    let error_text := get_error_text r
    if logic_error_patterns.any (fun p => searchIn p error_text) then
      some ErrorCategory.logic_error
    else if implementation_error_patterns.any (fun p => searchIn p error_text) then
      some ErrorCategory.implementation_error
    else if edge_case_patterns.any (fun p => searchIn p error_text) then
      some ErrorCategory.edge_case
    else
      some ErrorCategory.implementation_error

/-- `TestExecutor._create_failure_result` (testing/executor.py lines
355–377): a failed result whose category is assigned by the categorizer. -/
def create_failure_result (test_id : String) (duration_ms : Nat)
    (error_message : String) (stack_trace : Option String) : TestResult :=
  let r : TestResult :=
    { test_id := test_id, passed := false, duration_ms := duration_ms,
      error_message := some error_message, stack_trace := stack_trace }
  { r with error_category := categorize r }

/-- `TestExecutor._create_error_result` (testing/executor.py lines
379–400): a result for a test that could not run; category forced to
implementation_error. -/
def create_error_result (test_id : String) (duration_ms : Nat)
    (error_message : String) (stack_trace : Option String) : TestResult :=
  { test_id := test_id, passed := false, duration_ms := duration_ms,
    error_message := some error_message, stack_trace := stack_trace,
    error_category := some ErrorCategory.implementation_error }

/-- How one submitted test's future resolves in
`ParallelTestRunner._run_parallel`: a result, a collection timeout, or an
exception. -/
inductive FutureOutcome where
  | ok (r : TestResult)
  | timedOut
  | raised (e : String)

/-- The result `_run_parallel` synthesizes on `TimeoutError`
(parallel.py lines 294–300): failed, "Test timed out", and the dataclass
default (absent) error category. -/
def synth_timeout_result (test_id : String) (timeout_per_test_s : Nat) : TestResult :=
  { test_id := test_id, passed := false,
    duration_ms := timeout_per_test_s * 1000,
    error_message := some "Test timed out" }

/-- The result `_run_parallel` synthesizes on any other exception
(parallel.py lines 306–312). -/
def synth_error_result (test_id : String) (e : String) : TestResult :=
  { test_id := test_id, passed := false, duration_ms := 0,
    error_message := some ("Execution error: " ++ e) }

/-- `ParallelTestRunner._run_parallel` (parallel.py lines 252–323),
collection loop over futures in completion order: convert each outcome
to a TestResult (synthesizing untouched results for timeouts and
exceptions), track the sticky `failed` flag, and stop after the current
result when fail-fast is set and a failure has been seen. -/
def run_parallel_collect (fail_fast : Bool) (timeout_per_test_s : Nat)
    (failed : Bool) : List (String × FutureOutcome) → List TestResult
  | [] => []
  | (tid, out) :: rest =>
      let r := match out with
        | FutureOutcome.ok r => r
        | FutureOutcome.timedOut => synth_timeout_result tid timeout_per_test_s
        | FutureOutcome.raised e => synth_error_result tid e
      let failed := failed || !r.passed
      r :: (if fail_fast && failed then []
            else run_parallel_collect fail_fast timeout_per_test_s failed rest)

/- ===================================================================
   Graph executor (`framework/graph/executor.py`)
   =================================================================== -/

/-- Modelled from the spec: `NodeSpec` of the missing
`framework/graph/node.py` (§3): id, name, node_type, input/output keys,
tools, router routes. -/
structure NodeSpec where
  id : String
  name : String := ""
  node_type : String := "function"
  input_keys : List String := []
  output_keys : List String := []
  tools : List String := []
  routes : List (String × String) := []

/-- Modelled from the spec: the result a node implementation returns
(missing `framework/graph/node.py`): success flag, output dict, error,
explicit next node (routers), token and latency counts. -/
structure NodeResult where
  success : Bool
  output : PyDict := []
  error : Option String := none
  next_node : Option String := none
  tokens_used : Nat := 0
  latency_ms : Nat := 0

/-- Modelled from the spec: the per-iteration `NodeContext` of the
missing `framework/graph/node.py`.  The executor's `_build_context`
passes neither `attempt` nor `max_attempts`, so both fields take the
dataclass defaults; the defaults are kept abstract as the parameters
`d`/`m` of the embedding. -/
structure NodeContext where
  node_id : String
  input_keys : List String
  output_keys : List String
  attempt : Nat
  max_attempts : Nat

/-- `GraphExecutor._build_context` (executor.py lines 347–376): a fresh
context per loop iteration; `attempt`/`max_attempts` are the dataclass
defaults `d`/`m`. -/
def build_context (node_spec : NodeSpec) (d m : Nat) : NodeContext :=
  { node_id := node_spec.id, input_keys := node_spec.input_keys,
    output_keys := node_spec.output_keys, attempt := d, max_attempts := m }

/-- Modelled from the spec: an edge condition (§4.7): always, on_success,
on_failure, or a conditional predicate over the memory snapshot and the
source output. -/
inductive EdgeCond where
  | always
  | on_success
  | on_failure
  | conditional (pred : PyDict → PyDict → Bool)

/-- Modelled from the spec: `EdgeSpec` of the missing
`framework/graph/edge.py` (§3): source, target, condition, priority,
input remapping. -/
structure EdgeSpec where
  id : String := ""
  source : String
  target : String
  condition : EdgeCond := EdgeCond.always
  priority : Int := 0
  input_mapping : List (String × String) := []

/-- Modelled from the spec: `GraphSpec` of the missing
`framework/graph/edge.py` (§3). -/
structure GraphSpec where
  id : String := ""
  entry_node : String
  terminal_nodes : List String := []
  pause_nodes : List String := []
  nodes : List NodeSpec := []
  edges : List EdgeSpec := []
  max_steps : Nat := 20
  max_retries_per_node : Nat := 2

/-- `graph.get_node(id)`. -/
def get_node (g : GraphSpec) (node_id : String) : Option NodeSpec :=
  g.nodes.find? (fun n => n.id == node_id)

/-- Stable insertion keeping higher priority first (ties keep declaration
order). -/
def insertByPriority : List EdgeSpec → EdgeSpec → List EdgeSpec
  | [], e => [e]
  | x :: xs, e => if e.priority > x.priority then e :: x :: xs else x :: insertByPriority xs e

/-- Modelled from the spec: `graph.get_outgoing_edges(id)` — the edges
out of a node in priority-then-declaration order (§4.6 step 5.i). -/
def get_outgoing_edges (g : GraphSpec) (node_id : String) : List EdgeSpec :=
  (g.edges.filter (fun e => e.source == node_id)).foldl insertByPriority []

/-- Modelled from the spec: `edge.should_traverse` (§4.7). -/
def should_traverse (e : EdgeSpec) (source_success : Bool)
    (source_output : PyDict) (memory : PyDict) : Bool :=
  match e.condition with
  | EdgeCond.always => true
  | EdgeCond.on_success => source_success
  | EdgeCond.on_failure => !source_success
  | EdgeCond.conditional pred => pred memory source_output

/-- Modelled from the spec: `edge.map_inputs(source_output, memory)`
(§4.7): copy `source_output[src]` (falling back to `memory[src]`) to the
target key. -/
def map_inputs (e : EdgeSpec) (source_output memory : PyDict) : PyDict :=
  e.input_mapping.foldl
    (fun acc kv =>
      match dget source_output kv.1 with
      | some v => dset acc kv.2 v
      | none =>
          match dget memory kv.1 with
          | some v => dset acc kv.2 v
          | none => acc)
    []

/-- `GraphExecutor._follow_edges` over a given edge list: the first edge
whose condition holds wins; its mapped inputs are written to memory. -/
def follow_edges_go (res : NodeResult) (memory : PyDict) :
    List EdgeSpec → Option (String × PyDict)
  | [] => none
  | e :: rest =>
      if should_traverse e res.success res.output memory then
        let mapped := map_inputs e res.output memory
        some (e.target, mapped.foldl (fun acc kv => dset acc kv.1 kv.2) memory)
      else
        follow_edges_go res memory rest

/-- `GraphExecutor._follow_edges` (executor.py lines 404–435): returns
the chosen target and the memory after the edge's input mapping. -/
def follow_edges (g : GraphSpec) (current : String) (res : NodeResult)
    (memory : PyDict) : Option (String × PyDict) :=
  follow_edges_go res memory (get_outgoing_edges g current)

/-- Modelled from the spec: node-input validation warns about declared
input keys absent from memory (§4.6 step 5.c; missing node.py). -/
def validate_input (node_spec : NodeSpec) (memory : PyDict) : List String :=
  node_spec.input_keys.filter (fun k => !dhas memory k)

/-- Reachable node ids after one expansion step along edges and router
routes. -/
def expand_reachable (g : GraphSpec) (acc : List String) : List String :=
  acc ++ ((g.edges.filter (fun e => e.source ∈ acc)).map EdgeSpec.target ++
    ((g.nodes.filter (fun n => n.id ∈ acc)).map NodeSpec.routes).flatten.map Prod.snd).filter
      (fun t => t ∉ acc)

/-- Iterated reachability closure (|nodes| expansions suffice). -/
def reachable_from (g : GraphSpec) (roots : List String) : List String :=
  Nat.rec roots (fun _ acc => expand_reachable g acc) g.nodes.length

/-- Modelled from the spec: `graph.validate()` — the GraphSpec invariants
of §3: the entry node exists, every non-terminal non-pause node has an
outgoing edge, `llm_tool_use` nodes declare a tool, routers declare
routes to existing nodes, and every node is reachable from the entry plus
any resume entries present in the graph. -/
def graph_validate (g : GraphSpec) : List String :=
  (if (get_node g g.entry_node).isSome then [] else ["entry node not found"]) ++
  (g.nodes.filter (fun n =>
      n.id ∉ g.terminal_nodes && n.id ∉ g.pause_nodes &&
      (g.edges.filter (fun e => e.source == n.id)).isEmpty &&
      n.routes.isEmpty)).map (fun n => "node has no outgoing edge: " ++ n.id) ++
  (g.nodes.filter (fun n => n.node_type == "llm_tool_use" && n.tools.isEmpty)).map
    (fun n => "llm_tool_use node declares no tool: " ++ n.id) ++
  (g.nodes.filter (fun n => n.node_type == "router" && n.routes.isEmpty)).map
    (fun n => "router declares no route: " ++ n.id) ++
  ((g.nodes.map NodeSpec.routes).flatten.filter
    (fun r => (get_node g r.2).isNone)).map (fun r => "route target not found: " ++ r.2) ++
  (let roots := g.entry_node ::
      (g.pause_nodes.map (fun p => p ++ "_resume")).filter (fun r => (get_node g r).isSome)
   (g.nodes.filter (fun n => n.id ∉ reachable_from g roots)).map
     (fun n => "unreachable node: " ++ n.id))

/-- Modelled from the spec: `graph.get_entry_point(session_state)`
(§4.6 step 3): `session_state.resume_from` when present, else the entry
node. -/
def get_entry_point (g : GraphSpec) (session_state : Option PyDict) : String :=
  match session_state with
  | some ss =>
      match dget ss "resume_from" with
      | some (Val.vstr s) => s
      | _ => g.entry_node
  | none => g.entry_node

/-- A node implementation as injected behaviour: node id, number of prior
executions of that node in this run, current memory ↦ result.  Modelled
from the spec: node implementations (missing node.py) are deterministic
per invocation; their memory writes are reflected by merging
`result.output` into shared memory. -/
abbrev NodeImpl := String → Nat → PyDict → NodeResult

/-- A problem reported to the Runtime: (severity, description). -/
abbrev RProblem := String × String

/-- Modelled from the spec: the Runtime-visible trace of a run (§4.2,
missing `framework/runtime/core.py`): the reported problems in order and
the `end_run` record (success, output_data, narrative). -/
structure RunTrace where
  problems : List RProblem := []
  ended : Option (Bool × PyDict × String) := none

/-- `ExecutionResult` (executor.py lines 32–43). -/
structure ExecutionResult where
  success : Bool
  output : PyDict := []
  error : Option String := none
  steps_executed : Nat := 0
  total_tokens : Nat := 0
  total_latency_ms : Nat := 0
  path : List String := []
  paused_at : Option String := none
  session_state : PyDict := []

/-- The session state produced at a pause (executor.py lines 253–258):
`resume_from` is the paused node's id suffixed with `"_resume"`. -/
def pause_session (node_id : String) (saved : PyDict) : PyDict :=
  [("paused_at", Val.vstr node_id),
   ("resume_from", Val.vstr (node_id ++ "_resume")),
   ("memory", Val.vdict saved),
   ("next_node", Val.vnone)]

/-- Normal loop exit (executor.py lines 307–329): output is the full
memory, the run ends `completed`. -/
def finish_completed (mem : PyDict) (steps : Nat) (path : List String)
    (tok lat : Nat) (probs : List RProblem) : ExecutionResult × RunTrace :=
  ({ success := true, output := mem, steps_executed := steps, total_tokens := tok,
     total_latency_ms := lat, path := path },
   { problems := probs,
     ended := some (true, mem,
       "Executed " ++ toString steps ++ " steps through path: " ++
         String.intercalate " -> " path) })

/-- The `while steps < graph.max_steps` loop of `GraphExecutor.execute`
(executor.py lines 158–305), with `fuel` the remaining budget
(`max_steps - steps`).  Faithful points: the node context is rebuilt
every iteration (so its `attempt` field is always the default `d` and the
`ctx.attempt += 1` before `continue` has no effect on later iterations);
the node id is appended to `path` once per execution attempt; pause
handling precedes the terminal check; `input_data` becomes the previous
result's output only when advancing. -/
def run_loop (g : GraphSpec) (impl : NodeImpl) (d m : Nat) :
    Nat → String → PyDict → PyDict → (String → Nat) → Nat → List String →
    Nat → Nat → List RProblem → ExecutionResult × RunTrace
  | 0, _cur, mem, _inp, _counts, steps, path, tok, lat, probs =>
      finish_completed mem steps path tok lat probs
  | fuel + 1, cur, mem, inp, counts, steps, path, tok, lat, probs =>
      let steps := steps + 1
      match get_node g cur with
      | none =>
          let msg := "Node not found: " ++ cur
          ({ success := false, error := some msg, steps_executed := steps, path := path },
           { problems := probs ++ [("critical", msg)],
             ended := some (false, [], "Failed at step " ++ toString steps ++ ": " ++ msg) })
      | some node_spec =>
          let path := path ++ [cur]
          let ctx := build_context node_spec d m
          let validation_errors := validate_input node_spec mem
          let probs := if validation_errors.isEmpty then probs
            else probs ++ [("warning",
              "Validation errors for " ++ cur ++ ": " ++ String.intercalate ", " validation_errors)]
          let result := impl cur (counts cur) mem
          let counts' := fun s => if s = cur then counts s + 1 else counts s
          let mem := dmerge mem result.output
          let tok := tok + result.tokens_used
          let lat := lat + result.latency_ms
          if !result.success && decide (ctx.attempt < ctx.max_attempts) then
            run_loop g impl d m fuel cur mem inp counts' steps path tok lat probs
          else
            let probs := if result.success then probs
              else probs ++ [("critical",
                "Node " ++ cur ++ " failed: " ++ result.error.getD "None")]
            if node_spec.id ∈ g.pause_nodes then
              ({ success := true, output := mem, steps_executed := steps,
                 total_tokens := tok, total_latency_ms := lat, path := path,
                 paused_at := some node_spec.id,
                 session_state := pause_session node_spec.id mem },
               { problems := probs,
                 ended := some (true, mem,
                   "Paused at " ++ node_spec.name ++ " after " ++ toString steps ++ " steps") })
            else if node_spec.id ∈ g.terminal_nodes then
              finish_completed mem steps path tok lat probs
            else
              match result.next_node with
              | some n =>
                  run_loop g impl d m fuel n mem result.output counts' steps path tok lat probs
              | none =>
                  match follow_edges g cur result mem with
                  | none => finish_completed mem steps path tok lat probs
                  | some (target, mem2) =>
                      run_loop g impl d m fuel target mem2 result.output counts' steps path tok lat probs

/-- `GraphExecutor.execute` (executor.py lines 93–345): validate, build
memory from the optional session state overlaid with the input data, pick
the entry point, and run the loop with budget `max_steps`. -/
def graph_execute (g : GraphSpec) (impl : NodeImpl) (d m : Nat)
    (input_data : PyDict) (session_state : Option PyDict) :
    ExecutionResult × RunTrace :=
  let errors := graph_validate g
  if !errors.isEmpty then
    ({ success := false, error := some ("Invalid graph: " ++ String.intercalate "; " errors) },
     {})
  else
    let mem : PyDict :=
      match session_state with
      | some ss =>
          match dget ss "memory" with
          | some (Val.vdict mm) => mm.foldl (fun acc kv => dset acc kv.1 kv.2) []
          | _ => []
      | none => []
    let mem := dmerge mem input_data
    let cur := get_entry_point g session_state
    run_loop g impl d m g.max_steps cur mem input_data (fun _ => 0) 0 [] 0 0 []

/- ===================================================================
   Builder query (`framework/builder/query.py`)
   =================================================================== -/

/-- Modelled from the spec: `Outcome` of a Decision (missing
`framework/schemas/decision.py`, §3): success flag, result payload or
error string, latency, tokens. -/
structure DOutcome where
  success : Bool
  result : Option Val := none
  error : Option String := none
  tokens_used : Nat := 0
  latency_ms : Nat := 0

/-- Modelled from the spec: `Decision` (missing
`framework/schemas/decision.py`, §3): intent, options as
(id, description) pairs, chosen option id, reasoning, active constraints,
input context, decision type, and the optional Outcome. -/
structure Decision where
  id : String
  node_id : String := ""
  intent : String := ""
  options : List (String × String) := []
  chosen_option_id : String := ""
  reasoning : String := ""
  active_constraints : List String := []
  input_context : PyDict := []
  decision_type : String := ""
  outcome : Option DOutcome := none

/-- `decision.was_successful`: an outcome exists and succeeded. -/
def Decision.was_successful (dec : Decision) : Bool :=
  match dec.outcome with
  | some oc => oc.success
  | none => false

/-- Modelled from the spec: `decision.summary_for_builder()` — a
one-line human-readable summary of a decision. -/
def summary_for_builder (dec : Decision) : String :=
  dec.intent ++ " -> " ++ dec.chosen_option_id

/-- Modelled from the spec: a reported Problem (missing
`framework/schemas`, §3). -/
structure ProblemRec where
  severity : String
  description : String
  suggested_fix : Option String := none

/-- Modelled from the spec: `RunStatus` (missing
`framework/schemas/run.py`, §3). -/
inductive RunStatus where
  | pending | running | completed | failed | paused
deriving DecidableEq

/-- Modelled from the spec: `Run` (missing `framework/schemas/run.py`,
§3): status, ordered decisions, problems. -/
structure Run where
  id : String
  status : RunStatus
  decisions : List Decision := []
  problems : List ProblemRec := []

/-- `FailureAnalysis` (query.py lines 20–47). -/
structure FailureAnalysis where
  run_id : String
  failure_point : String
  root_cause : Option String
  decision_chain : List String
  problems : List String
  suggestions : List String

/-- The decision-chain loop of `analyze_failure` (query.py lines
191–195): summaries of the prefix up to and including the first
unsuccessful decision. -/
def decision_chain_of : List Decision → List String
  | [] => []
  | dec :: ds =>
      summary_for_builder dec ::
        (if dec.was_successful then decision_chain_of ds else [])

/-- `BuilderQuery._generate_suggestions` (query.py lines 396–432). -/
def generate_suggestions (run : Run) (failed_decisions : List Decision) : List String :=
  (failed_decisions.map (fun dec =>
    (if dec.options.length > 1 then
       match dec.options.filter (fun o => o.1 ≠ dec.chosen_option_id) with
       | [] => []
       | alt :: _ =>
           ["Consider alternative: '" ++ alt.2 ++ "' instead of '" ++
             (((dec.options.find? (fun o => o.1 == dec.chosen_option_id)).map Prod.snd).getD
               "unknown") ++ "'"]
     else []) ++
    (if dec.input_context.isEmpty then
       ["Decision '" ++ dec.intent ++ "' had no input context - ensure relevant data is passed"]
     else []) ++
    (if !dec.active_constraints.isEmpty then
       ["Review constraints: " ++ String.intercalate ", " dec.active_constraints ++
         " - may be too restrictive"]
     else []))).flatten ++
  (run.problems.filterMap ProblemRec.suggested_fix)

/-- `BuilderQuery.analyze_failure` (query.py lines 171–214): `None` when
the run is missing or not `failed`; otherwise the failure point and root
cause come from the first unsuccessful decision (or the external-cause
placeholders), the decision chain is the prefix of decision summaries up
to and including that first failure, and every reported problem is listed
as "[severity] description". -/
def analyze_failure (load_run : String → Option Run) (run_id : String) :
    Option FailureAnalysis :=
  match load_run run_id with
  | none => none
  | some run =>
      if run.status ≠ RunStatus.failed then none
      else
        let failed_decisions := run.decisions.filter (fun dec => !dec.was_successful)
        let fp_rc : String × Option String :=
          match failed_decisions with
          | [] => ("Unknown - no decision marked as failed",
                   some "Run failed but all decisions succeeded (external cause?)")
          | first_failure :: _ =>
              (summary_for_builder first_failure,
               match first_failure.outcome with
               | some oc => oc.error
               | none => some "Unknown")
        some { run_id := run_id,
               failure_point := fp_rc.1,
               root_cause := fp_rc.2,
               decision_chain := decision_chain_of run.decisions,
               problems := run.problems.map (fun p =>
                 "[" ++ p.severity ++ "] " ++ p.description),
               suggestions := generate_suggestions run failed_decisions }

/- ===================================================================
   JSON extraction (`parse_llm_json_response`, worker_node.py lines
   29–84), at character level
   =================================================================== -/

/-- The backtick character. -/
def btick : Char := Char.ofNat 96

/-- The double-quote character. -/
def dquoteC : Char := Char.ofNat 34

/-- The backslash character. -/
def bslashC : Char := Char.ofNat 92

/-- Opening brace. -/
def obraceC : Char := Char.ofNat 123

/-- Closing brace. -/
def cbraceC : Char := Char.ofNat 125

/-- Python `str.strip()` whitespace (same set as regex `\s`). -/
def dropEndWs : List Char → List Char
  | [] => []
  | a :: l =>
      let r := dropEndWs l
      if r.isEmpty then (if isWsChar a then [] else [a]) else a :: r

/-- `text.strip()`. -/
def stripChars (l : List Char) : List Char :=
  dropEndWs (l.dropWhile isWsChar)

/-- Does the text start with a ``` fence? -/
def fenceHead : List Char → Bool
  | a :: b :: c :: _ => a = btick ∧ b = btick ∧ c = btick
  | _ => false

/-- Split at the first ``` fence: `some (before, after)` with the fence
itself dropped. -/
def splitFence : List Char → Option (List Char × List Char)
  | [] => none
  | c :: rest =>
      if fenceHead (c :: rest) then some ([], rest.drop 2)
      else (splitFence rest).map (fun pr => (c :: pr.1, pr.2))

/-- The optional `json` tag directly after an opening fence
(`(?:json)?`). -/
def jsonTagHead : List Char → Bool
  | c1 :: c2 :: c3 :: c4 :: _ => c1 = 'j' ∧ c2 = 's' ∧ c3 = 'o' ∧ c4 = 'n'
  | _ => false

/-- `re.findall(r'```(?:json)?\s*([\s\S]*?)\s*```', cleaned)`, fuelled:
successive non-overlapping fenced blocks; each capture is the text
between a fence (with its optional `json` tag) and the next fence.  The
`\s*` trimming of the regex is subsumed by the `.strip()` the caller
applies to every capture. -/
def findFencesF : Nat → List Char → List (List Char)
  | 0, _ => []
  | fuel + 1, l =>
      match splitFence l with
      | none => []
      | some (_pre, rest) =>
          let rest2 := if jsonTagHead rest then rest.drop 4 else rest
          match splitFence rest2 with
          | none => []
          | some (cap, tail) => cap :: findFencesF fuel tail

/-- All fenced-block captures of the code-block pattern. -/
def findFences (l : List Char) : List (List Char) :=
  findFencesF (l.length + 1) l

/-- Modelled from the spec: the standard-library `json.loads` —
escape-character decoding for JSON strings (`\uXXXX` is not supported by
the model). -/
def escChar (c : Char) : Option Char :=
  if c = dquoteC then some dquoteC
  else if c = bslashC then some bslashC
  else if c = '/' then some '/'
  else if c = 'n' then some '\n'
  else if c = 't' then some '\t'
  else if c = 'r' then some '\r'
  else if c = 'b' then some (Char.ofNat 8)
  else if c = 'f' then some (Char.ofNat 12)
  else none

/-- Modelled from the spec: `json.loads` string bodies — characters after
the opening quote up to the closing quote, with escapes. -/
def jstrL : List Char → Option (List Char × List Char)
  | [] => none
  | c :: rest =>
      if c = dquoteC then some ([], rest)
      else if c = bslashC then
        match rest with
        | [] => none
        | e :: rest' =>
            match escChar e with
            | none => none
            | some ec => (jstrL rest').map (fun pr => (ec :: pr.1, pr.2))
      else (jstrL rest).map (fun pr => (c :: pr.1, pr.2))

/-- Digit run to a natural number. -/
def digitsToNat (l : List Char) : Nat :=
  l.foldl (fun acc c => acc * 10 + (c.toNat - 48)) 0

/-- Modelled from the spec: `json.loads` numbers, restricted to integer
literals (a fraction or exponent makes the model fail). -/
def jnum : List Char → Option (Int × List Char)
  | [] => none
  | c :: rest =>
      let neg := c = '-'
      let body := if neg then rest else c :: rest
      let ds := body.takeWhile Char.isDigit
      let after := body.dropWhile Char.isDigit
      if ds.isEmpty then none
      else
        match after with
        | a :: _ => if a = '.' ∨ a = 'e' ∨ a = 'E' then none
            else some (if neg then -(digitsToNat ds : Int) else (digitsToNat ds : Int), after)
        | [] => some (if neg then -(digitsToNat ds : Int) else (digitsToNat ds : Int), [])

mutual

/-- Modelled from the spec: `json.loads` value parser (fuelled recursive
descent). -/
def jparseV : Nat → List Char → Option (Val × List Char)
  | 0, _ => none
  | fuel + 1, l =>
      let l := l.dropWhile isWsChar
      match l with
      | [] => none
      | c :: rest =>
          if c = dquoteC then (jstrL rest).map (fun pr => (Val.vstr (String.mk pr.1), pr.2))
          else if c = obraceC then
            (jparseMembers fuel true rest).map (fun pr =>
              (Val.vdict (pr.1.foldl (fun acc kv => dset acc kv.1 kv.2) []), pr.2))
          else if c = '[' then jparseItems fuel true rest
          else
            match dropLit "true".toList (c :: rest) with
            | some r => some (Val.vbool true, r)
            | none =>
                match dropLit "false".toList (c :: rest) with
                | some r => some (Val.vbool false, r)
                | none =>
                    match dropLit "null".toList (c :: rest) with
                    | some r => some (Val.vnone, r)
                    | none => (jnum (c :: rest)).map (fun pr => (Val.vint pr.1, pr.2))

/-- Modelled from the spec: `json.loads` array items (after the opening
bracket; `first` marks the position before any element). -/
def jparseItems : Nat → Bool → List Char → Option (Val × List Char)
  | 0, _, _ => none
  | fuel + 1, first, l =>
      let l := l.dropWhile isWsChar
      match l with
      | [] => none
      | c :: rest =>
          if c = ']' then (if first then some (Val.vlist [], rest) else none)
          else
            match jparseV fuel (c :: rest) with
            | none => none
            | some (v, r) =>
                let r := r.dropWhile isWsChar
                match r with
                | ']' :: r' => some (Val.vlist [v], r')
                | ',' :: r' =>
                    match jparseItems fuel false r' with
                    | some (Val.vlist vs, r'') => some (Val.vlist (v :: vs), r'')
                    | _ => none
                | _ => none

/-- Modelled from the spec: `json.loads` object members (after the
opening brace), as the member list in source order (duplicate keys are
resolved by the caller's left-to-right `dset` fold, later keys winning
as in Python). -/
def jparseMembers : Nat → Bool → List Char → Option (PyDict × List Char)
  | 0, _, _ => none
  | fuel + 1, first, l =>
      let l := l.dropWhile isWsChar
      match l with
      | [] => none
      | c :: rest =>
          if c = cbraceC then (if first then some ([], rest) else none)
          else if c = dquoteC then
            match jstrL rest with
            | none => none
            | some (k, r) =>
                match r.dropWhile isWsChar with
                | ':' :: r' =>
                    match jparseV fuel r' with
                    | none => none
                    | some (v, r2) =>
                        let r2 := r2.dropWhile isWsChar
                        match r2 with
                        | c2 :: r3 =>
                            if c2 = cbraceC then
                              some ([(String.mk k, v)], r3)
                            else if c2 = ',' then
                              match jparseMembers fuel false r3 with
                              | some (kvs, r4) => some ((String.mk k, v) :: kvs, r4)
                              | none => none
                            else none
                        | [] => none
                | _ => none
          else none

end

/-- Modelled from the spec: `json.loads` over a character sequence —
parse one value and require only whitespace to remain. -/
def jloads (l : List Char) : Option Val :=
  match jparseV (l.length + 1) l with
  | some (v, rest) => if (rest.dropWhile isWsChar).isEmpty then some v else none
  | none => none

/-- Split at the last occurrence of a character. -/
def lastSplit (t : Char) : List Char → Option (List Char × List Char)
  | [] => none
  | c :: rest =>
      match lastSplit t rest with
      | some (b, a) => some (c :: b, a)
      | none => if c = t then some ([], rest) else none

/-- `re.findall(r'(\{[\s\S]*\}|\[[\s\S]*\])', cleaned)`, fuelled: at the
first `{` (resp. `[`), the greedy capture runs to the last matching `}`
(resp. `]`); scanning continues after the match. -/
def jsonLikeF : Nat → List Char → List (List Char)
  | 0, _ => []
  | _fuel + 1, [] => []
  | fuel + 1, c :: rest =>
      if c = obraceC then
        match lastSplit cbraceC rest with
        | some (before, after) => (obraceC :: before ++ [cbraceC]) :: jsonLikeF fuel after
        | none => jsonLikeF fuel rest
      else if c = '[' then
        match lastSplit ']' rest with
        | some (before, after) => (c :: before ++ [']']) :: jsonLikeF fuel after
        | none => jsonLikeF fuel rest
      else jsonLikeF fuel rest

/-- Try each fenced capture in order: the first whose `.strip()` parses
as JSON wins (worker_node.py lines 57–63). -/
def tryFenced : List (List Char) → Option (Val × List Char)
  | [] => none
  | m :: rest =>
      match jloads (stripChars m) with
      | some v => some (v, stripChars m)
      | none => tryFenced rest

/-- Try each JSON-like candidate in order (worker_node.py lines 72–81). -/
def tryJsonLike : List (List Char) → Option (Val × List Char)
  | [] => none
  | m :: rest =>
      match jloads m with
      | some v => some (v, m)
      | none => tryJsonLike rest

/-- `parse_llm_json_response` (worker_node.py lines 29–84) over a
character sequence: strip; try fenced code blocks; then the whole
response; then brace/bracket-delimited candidates; else `(None,
cleaned)`. -/
def parse_llm_json_response_l (text : List Char) : Option Val × List Char :=
  let cleaned := stripChars text
  match tryFenced (findFences cleaned) with
  | some (v, m) => (some v, m)
  | none =>
      match jloads cleaned with
      | some v => (some v, cleaned)
      | none =>
          match tryJsonLike (jsonLikeF (cleaned.length + 1) cleaned) with
          | some (v, m) => (some v, m)
          | none => (none, cleaned)

/-- `parse_llm_json_response` on `String`s. -/
def parse_llm_json_response (text : String) : Option Val × String :=
  let r := parse_llm_json_response_l text.toList
  (r.1, String.mk r.2)

/-- `j` wrapped in a ```json fenced code block. -/
def wrapJsonFence (l : List Char) : List Char :=
  [btick, btick, btick, 'j', 's', 'o', 'n', '\n'] ++ l ++ ('\n' :: [btick, btick, btick])

/-- `j` wrapped in a generic ``` fenced code block. -/
def wrapPlainFence (l : List Char) : List Char :=
  [btick, btick, btick, '\n'] ++ l ++ ('\n' :: [btick, btick, btick])

/- ===================================================================
   Concrete scenarios used by the claims
   =================================================================== -/

/-- Scenario S2 (spec §8): a single function node `A`, terminal, with
`max_retries_per_node = 2`. -/
def gS2 : GraphSpec :=
  { entry_node := "A", terminal_nodes := ["A"],
    nodes := [{ id := "A", name := "A", output_keys := ["done"] }],
    max_steps := 5, max_retries_per_node := 2 }

/-- Scenario S2 node behaviour: `A` fails on its first execution with a
rate-limit error and succeeds on the second. -/
def implS2 : NodeImpl := fun node_id cnt _mem =>
  if node_id = "A" ∧ cnt = 0 then
    { success := false, error := some "rate limited" }
  else
    { success := true, output := [("done", Val.vbool true)] }

/-- A graph whose entry node succeeds but whose only outgoing edge is an
`on_failure` edge to the terminal node `E`. -/
def gNoEdge : GraphSpec :=
  { entry_node := "A", terminal_nodes := ["E"],
    nodes := [{ id := "A", name := "A" }, { id := "E", name := "E" }],
    edges := [{ source := "A", target := "E", condition := EdgeCond.on_failure }],
    max_steps := 5 }

/-- A node implementation that always succeeds with no output. -/
def implOk : NodeImpl := fun _ _ _ => { success := true }

/-- A graph whose entry node `P` is a pause node; no node named
`P_resume` exists. -/
def gPause : GraphSpec :=
  { entry_node := "P", pause_nodes := ["P"],
    nodes := [{ id := "P", name := "P" }], max_steps := 5 }

/-- A worker configuration with one registered function `f` that returns
a `{success, outputs, error}`-shaped dict (reporting failure). -/
def shapedDict : Val :=
  Val.vdict [("success", Val.vbool false), ("outputs", Val.vdict []),
             ("error", Val.vstr "boom")]

/-- Registered functions for the C5 scenario. -/
def cfgShape : WorkerCfg :=
  { functions := fun n => if n = "f" then some (fun _ => Except.ok shapedDict) else none }

/-- A FUNCTION-kind action calling `f`. -/
def actFn : ActionSpec := { action_type := ActionType.function, function_name := some "f" }

/-- A TOOL_USE-kind action resolving to the registered function `f`. -/
def actTool : ActionSpec := { action_type := ActionType.tool_use, tool_name := some "f" }

/-- A `tools/call` response content with a single textual item "hi". -/
def hiContent : List MContent := [MContent.text "hi"]

/-- The HTTP JSON-RPC response body carrying that content. -/
def hiHttpData : PyDict :=
  [("jsonrpc", Val.vstr "2.0"), ("id", Val.vint 2),
   ("result", Val.vdict [("content", Val.vlist (hiContent.map mcontentVal))])]

/-- A connected MCP client state with one cached tool `echo`. -/
def stEcho : MCPClientState := { connected := true, tools := ["echo"] }

/-- A server that lists `echo` and answers every call with "hi". -/
def srvEcho : MCPServerBehavior :=
  { list_tools := Except.ok ["echo"], call := fun _ _ => Except.ok (Val.vstr "hi") }

/-- The bare JSON string literal whose value is "```" (three backticks):
a JSON document that itself contains a code fence. -/
def bareTickJson : List Char := dquoteC :: btick :: btick :: btick :: [dquoteC]

/-- What a paused execution outcome looks like (claim C2): success, a
pause node, the exact session-state form with `resume_from` the node id
plus `"_resume"`, a completed `end_run`, and the paused node last on the
path. -/
def PausedShape (g : GraphSpec) (pr : ExecutionResult × RunTrace) (p : String) : Prop :=
  pr.1.success = true ∧
  p ∈ g.pause_nodes ∧
  pr.1.session_state = pause_session p pr.1.output ∧
  (∃ narrative, pr.2.ended = some (true, pr.1.output, narrative)) ∧
  pr.1.path.getLast? = some p

/-- How a non-paused successful execution can end (claim C3): at a
terminal node, or at a node where the result set no `next_node` and no
outgoing edge condition matched, or with the step budget exhausted. -/
def CompletedExitShape (g : GraphSpec) (pr : ExecutionResult × RunTrace)
    (steps fuel : Nat) : Prop :=
  (∃ t, pr.1.path.getLast? = some t ∧ t ∈ g.terminal_nodes) ∨
  (∃ t res mem2, pr.1.path.getLast? = some t ∧ NodeResult.next_node res = none ∧
    follow_edges g t res mem2 = none) ∨
  pr.1.steps_executed = steps + fuel

/- ===================================================================
   Theorems
   =================================================================== -/

/-- C4: every call to `WorkerNode.execute` records exactly one Decision —
intent "Execute plan step: " plus the step description, a single option
equal to the action kind — and exactly one closing outcome carrying the
result's success flag, its outputs or error, its tokens and the measured
latency; when dispatch raises, no exception propagates: the result is a
failed `StepExecutionResult` with `error_type = "exception"` and the
outcome carries the error with the same latency. -/
theorem c4_worker_records_one_decision_one_outcome
    (cfg : WorkerCfg) (raised : Option String) (step : PlanStep)
    (context : PyDict) (llm_parse : String → Option Val) :
    (worker_execute cfg raised step context llm_parse).2 =
      [REvent.decide ("Execute plan step: " ++ step.description)
         [(step.action.action_type.value,
           "Execute " ++ step.action.action_type.value ++ " action")]
         step.action.action_type.value
         ("Step requires " ++ step.action.action_type.value),
       REvent.outcome 0
         (worker_execute cfg raised step context llm_parse).1.success
         (match raised with
          | none => some (if (worker_execute cfg raised step context llm_parse).1.success
              then Val.vdict (worker_execute cfg raised step context llm_parse).1.outputs
              else (((worker_execute cfg raised step context llm_parse).1.error).map
                Val.vstr).getD Val.vnone)
          | some _ => none)
         (match raised with
          | none => none
          | some e => some e)
         (worker_execute cfg raised step context llm_parse).1.tokens_used
         (worker_execute cfg raised step context llm_parse).1.latency_ms] ∧
    (∀ e, raised = some e →
      (worker_execute cfg raised step context llm_parse).1 =
        { success := false, error := some e, error_type := some "exception",
          latency_ms := cfg.elapsed_ms }) := by
  cases raised with
  | none =>
      constructor
      · simp only [worker_execute, worker_dispatch, step_option]
      · intro e h
        exact absurd h (by simp)
  | some e =>
      constructor
      · simp only [worker_execute, worker_dispatch, step_option]
      · intro e' h
        cases h
        simp only [worker_execute, worker_dispatch]

/-- C5 counterexample: a FUNCTION-kind action whose registered function
returns the `{success, outputs, error}`-shaped dict `shapedDict`
(reporting failure) is *not* preserved: the dispatcher wraps it as
`{"result": value}` with `success = true`. -/
theorem c5_function_shape_not_preserved :
    worker_dispatch cfgShape none actFn [] [] (fun _ => none) =
      Except.ok { success := true, outputs := [("result", shapedDict)],
                  executor_type := "function" } := by
  rfl

/-- C5 amended: a FUNCTION-kind action always wraps the returned value as
`{"result": value}` with `success = true`, whatever its shape; the
`{success, outputs, error}` shape is preserved only on the TOOL_USE path
when the tool name resolves to a registered in-process function. -/
theorem c5_function_wraps_tool_use_preserves :
    (∀ (cfg : WorkerCfg) (action : ActionSpec) (inputs : PyDict) (fname : String)
       (f : PyDict → Except String Val) (v : Val),
       action.function_name = some fname → cfg.functions fname = some f →
       f (dmerge action.function_args inputs) = Except.ok v →
       execute_function cfg action inputs =
         { success := true, outputs := [("result", v)], executor_type := "function" }) ∧
    (∀ (cfg : WorkerCfg) (action : ActionSpec) (inputs : PyDict) (tname : String)
       (f : PyDict → Except String Val) (d : PyDict),
       action.tool_name = some tname → cfg.functions tname = some f →
       f (resolve_from_self (dmerge action.tool_args inputs)) = Except.ok (Val.vdict d) →
       dhas d "success" = true →
       execute_tool_use cfg action inputs =
         { success := truthy (dgetD d "success" (Val.vbool false)),
           outputs := toDict (dgetD d "outputs" (Val.vdict [])),
           error := (dget d "error").bind (fun v =>
             match v with
             | Val.vstr s => some s
             | _ => none),
           error_type := (dget d "error_type").bind (fun v =>
             match v with
             | Val.vstr s => some s
             | _ => none),
           executor_type := "tool_use" }) := by
  constructor
  · intro cfg action inputs fname f v h1 h2 h3
    simp [execute_function, h1, h2, h3]
  · intro cfg action inputs tname f d h1 h2 h3 h4
    simp [execute_tool_use, h1, h2, h3, h4]

/-- C6 counterexample: for a successful `tools/call` whose content array
holds a single textual item "hi", the stdio client returns the text "hi"
but the HTTP client returns the raw content array (which is not the
text): the extraction behaviour of the two transports differs. -/
theorem c6_http_returns_raw_content :
    call_tool_stdio hiContent = Val.vstr "hi" ∧
    call_tool_http hiHttpData = Except.ok (Val.vlist (hiContent.map mcontentVal)) ∧
    Val.vlist (hiContent.map mcontentVal) ≠ Val.vstr "hi" := by
  refine ⟨rfl, rfl, ?_⟩
  intro h
  exact Val.noConfusion h

/-- C6 amended: only the stdio transport extracts from the content array
(the first item's `text` when textual, else its `data`, else the raw
list; `None` when empty); the HTTP transport always returns the raw
`result.content` payload, textual first item or not. -/
theorem c6_stdio_extracts_http_raw :
    (∀ (s : String) (rest : List MContent),
       call_tool_stdio (MContent.text s :: rest) = Val.vstr s) ∧
    (∀ (d : Val) (rest : List MContent),
       call_tool_stdio (MContent.data d :: rest) = d) ∧
    call_tool_stdio [] = Val.vnone ∧
    (∀ (items : List Val),
       call_tool_http
         [("jsonrpc", Val.vstr "2.0"), ("id", Val.vint 2),
          ("result", Val.vdict [("content", Val.vlist items)])] =
         Except.ok (Val.vlist items)) := by
  refine ⟨fun s rest => rfl, fun d rest => rfl, rfl, fun items => rfl⟩

/-- C7: the parallel runner synthesizes the timed-out result
`TestResult(passed=False, error_message="Test timed out")` without ever
passing it through the categorizer, so it carries no error_category —
although the categorizer, applied to that very result, would assign the
default implementation_error. -/
theorem c7_timeout_result_has_no_category :
    run_parallel_collect false 60 false [("t1", FutureOutcome.timedOut)] =
      [synth_timeout_result "t1" 60] ∧
    (synth_timeout_result "t1" 60).passed = false ∧
    (synth_timeout_result "t1" 60).error_category = none ∧
    categorize (synth_timeout_result "t1" 60) =
      some ErrorCategory.implementation_error ∧
    (synth_error_result "t1" "boom").error_category = none := by
  refine ⟨rfl, rfl, rfl, by decide, rfl⟩

/-- C10: calling `call_tool` on a connected client with a tool name not
in the discovery-time cache raises `ValueError("Unknown tool: …")`
before any transport request is made, leaving the connected flag and the
tool cache unchanged. -/
theorem c10_unknown_tool_no_request (srv : MCPServerBehavior)
    (st : MCPClientState) (name : String) (args : PyDict)
    (hc : st.connected = true) (hn : name ∉ st.tools) :
    mcp_call_tool srv st name args =
      (Except.error ("Unknown tool: " ++ name), st, []) := by
  simp [mcp_call_tool, mcp_connect, hc, hn]

/-- C10 witness: the connected `echo` client refuses the unknown tool
`nope` with no transport request and no state change. -/
theorem c10_unknown_tool_witness :
    mcp_call_tool srvEcho stEcho "nope" [] =
      (Except.error ("Unknown tool: nope"), stEcho, []) :=
  c10_unknown_tool_no_request srvEcho stEcho "nope" [] rfl (by decide)

/-- The decision chain of a list whose prefix is successful and whose
next decision fails is exactly the summaries of that prefix plus the
failing decision. -/
theorem decision_chain_of_prefix (pre : List Decision) (dec : Decision)
    (ds : List Decision) (hpre : ∀ x ∈ pre, x.was_successful = true)
    (hdec : dec.was_successful = false) :
    decision_chain_of (pre ++ dec :: ds) = (pre ++ [dec]).map summary_for_builder := by
  induction pre with
  | nil => simp [decision_chain_of, hdec]
  | cons a t ih =>
      have ha : a.was_successful = true := hpre a (by simp)
      have ht : ∀ x ∈ t, x.was_successful = true := fun x hx => hpre x (by simp [hx])
      simp [decision_chain_of, ha, ih ht]

/-- Filtering for unsuccessful decisions skips a successful prefix. -/
theorem filter_unsuccessful_prefix (pre : List Decision) (dec : Decision)
    (ds : List Decision) (hpre : ∀ x ∈ pre, x.was_successful = true)
    (hdec : dec.was_successful = false) :
    (pre ++ dec :: ds).filter (fun x => !x.was_successful) =
      dec :: ds.filter (fun x => !x.was_successful) := by
  induction pre with
  | nil => simp [List.filter, hdec]
  | cons a t ih =>
      have ha : a.was_successful = true := hpre a (by simp)
      have ht : ∀ x ∈ t, x.was_successful = true := fun x hx => hpre x (by simp [hx])
      simp [List.filter, ha, ih ht]

/-- C9: `analyze_failure` returns `None` when the run is missing or not
failed; for a failed run whose first unsuccessful decision has an
outcome, the root cause is that outcome's error, the decision chain is
exactly the summaries of the prefix up to and including that decision,
and every reported problem is listed. -/
theorem c9_analyze_failure_contract :
    (∀ (load_run : String → Option Run) (run_id : String),
       load_run run_id = none → analyze_failure load_run run_id = none) ∧
    (∀ (load_run : String → Option Run) (run_id : String) (run : Run),
       load_run run_id = some run → run.status ≠ RunStatus.failed →
       analyze_failure load_run run_id = none) ∧
    (∀ (load_run : String → Option Run) (run_id : String) (run : Run)
       (pre : List Decision) (dec : Decision) (post : List Decision) (oc : DOutcome),
       load_run run_id = some run → run.status = RunStatus.failed →
       run.decisions = pre ++ dec :: post →
       (∀ x ∈ pre, x.was_successful = true) →
       dec.was_successful = false →
       dec.outcome = some oc →
       ∃ fa, analyze_failure load_run run_id = some fa ∧
         fa.failure_point = summary_for_builder dec ∧
         fa.root_cause = oc.error ∧
         fa.decision_chain = (pre ++ [dec]).map summary_for_builder ∧
         fa.problems = run.problems.map (fun p =>
           "[" ++ p.severity ++ "] " ++ p.description)) := by
  refine ⟨?_, ?_, ?_⟩
  · intro load_run run_id h
    simp [analyze_failure, h]
  · intro load_run run_id run h hs
    simp [analyze_failure, h, hs]
  · intro load_run run_id run pre dec post oc h hs hd hpre hdec hoc
    have key : analyze_failure load_run run_id = some
        { run_id := run_id,
          failure_point := summary_for_builder dec,
          root_cause := oc.error,
          decision_chain := (pre ++ [dec]).map summary_for_builder,
          problems := run.problems.map (fun p =>
            "[" ++ p.severity ++ "] " ++ p.description),
          suggestions := generate_suggestions run
            (dec :: post.filter (fun x => !x.was_successful)) } := by
      simp only [analyze_failure, h, hs, hd,
        filter_unsuccessful_prefix pre dec post hpre hdec,
        decision_chain_of_prefix pre dec post hpre hdec, hoc]
      simp
    exact ⟨_, key, rfl, rfl, rfl, rfl⟩

/-- A successful decision for the C9 witness run. -/
def decOk : Decision :=
  { id := "d1", intent := "step one", chosen_option_id := "x",
    outcome := some { success := true } }

/-- The failing decision for the C9 witness run. -/
def decBad : Decision :=
  { id := "d2", intent := "step two", chosen_option_id := "y",
    outcome := some { success := false, error := some "exploded" } }

/-- A failed run with one successful then one failing decision and one
reported problem. -/
def runFail : Run :=
  { id := "r1", status := RunStatus.failed, decisions := [decOk, decBad],
    problems := [{ severity := "critical", description := "boom" }] }

/-- Storage holding exactly `runFail`. -/
def loadFail : String → Option Run :=
  fun rid => if rid = "r1" then some runFail else none

/-- C9 witness: on the concrete failed run, the analysis reports the
failing decision's error as root cause, the two-decision chain, and the
problem list. -/
theorem c9_analyze_failure_witness :
    ∃ fa, analyze_failure loadFail "r1" = some fa ∧
      fa.failure_point = summary_for_builder decBad ∧
      fa.root_cause = some "exploded" ∧
      fa.decision_chain = ["step one -> x", "step two -> y"] ∧
      fa.problems = ["[critical] boom"] := by
  obtain ⟨fa, h1, h2, h3, h4, h5⟩ :=
    c9_analyze_failure_contract.2.2 loadFail "r1" runFail [decOk] decBad []
      { success := false, error := some "exploded" }
      rfl rfl rfl
      (by intro x hx; simp at hx; subst hx; rfl)
      rfl rfl
  exact ⟨fa, h1, h2, h3, by simpa using h4, by simpa using h5⟩

/-- C1: in scenario S2 (node `A` fails once then succeeds,
`max_retries_per_node = 2`) the executor does not behave as specified,
whatever the NodeContext dataclass defaults `d` (attempt) and `m`
(max_attempts) are: the context is rebuilt every iteration, so the
`ctx.attempt += 1` of the retry branch is lost and the retry decision
compares the constants `d < m` each time; `graph.max_retries_per_node`
is never consulted.  If `d < m` the node is retried but appears once per
attempt in the path (`["A", "A"]`, not one entry); if `m ≤ d` it is
never retried and a critical Problem is recorded.  Either way the S2
expectation (retried node once in the path, no critical problem) fails. -/
theorem c1_retry_counter_reset (d m : Nat) :
    (d < m →
      (graph_execute gS2 implS2 d m [] none).1.path = ["A", "A"] ∧
      (graph_execute gS2 implS2 d m [] none).1.success = true ∧
      (graph_execute gS2 implS2 d m [] none).2.problems = []) ∧
    (m ≤ d →
      (graph_execute gS2 implS2 d m [] none).1.path = ["A"] ∧
      (graph_execute gS2 implS2 d m [] none).1.success = true ∧
      (graph_execute gS2 implS2 d m [] none).2.problems =
        [("critical", "Node A failed: rate limited")]) := by
  constructor
  · intro h
    refine ⟨?_, ?_, ?_⟩ <;>
      simp [graph_execute, graph_validate, gS2, get_node, reachable_from,
        expand_reachable, get_entry_point, run_loop, implS2, build_context,
        validate_input, finish_completed, follow_edges, get_outgoing_edges,
        follow_edges_go, dmerge, dset, dget, dhas, h] <;> decide
  · intro h
    refine ⟨?_, ?_, ?_⟩ <;>
      simp [graph_execute, graph_validate, gS2, get_node, reachable_from,
        expand_reachable, get_entry_point, run_loop, implS2, build_context,
        validate_input, finish_completed, follow_edges, get_outgoing_edges,
        follow_edges_go, dmerge, dset, dget, dhas, Nat.not_lt.mpr h] <;> decide

/-- C1 witness: with defaults `1 < 3` the retried node appears twice in
the path (no critical problem); with defaults `3, 3` there is no retry
and a critical problem is recorded — at the concrete S2 input. -/
theorem c1_retry_counter_reset_witness :
    ((graph_execute gS2 implS2 1 3 [] none).1.path = ["A", "A"] ∧
     (graph_execute gS2 implS2 1 3 [] none).2.problems = []) ∧
    ((graph_execute gS2 implS2 3 3 [] none).1.path = ["A"] ∧
     (graph_execute gS2 implS2 3 3 [] none).2.problems =
       [("critical", "Node A failed: rate limited")]) :=
  ⟨⟨((c1_retry_counter_reset 1 3).1 (by decide)).1,
    ((c1_retry_counter_reset 1 3).1 (by decide)).2.2⟩,
   ⟨((c1_retry_counter_reset 3 3).2 (by decide)).1,
    ((c1_retry_counter_reset 3 3).2 (by decide)).2.2⟩⟩

/-- A found node carries the id it was looked up by. -/
theorem get_node_id {g : GraphSpec} {cur : String} {n : NodeSpec}
    (h : get_node g cur = some n) : n.id = cur := by
  have := List.find?_some h
  simpa using this

/-- Every paused `run_loop` outcome has the pause shape: the only return
site that sets `paused_at` is the pause branch, which builds the session
state, ends the run `completed`, and leaves the paused node last on the
path. -/
theorem run_loop_paused (g : GraphSpec) (impl : NodeImpl) (d m : Nat) :
    ∀ (fuel : Nat) (cur : String) (mem inp : PyDict) (counts : String → Nat)
      (steps : Nat) (path : List String) (tok lat : Nat) (probs : List RProblem)
      (pr : ExecutionResult × RunTrace) (p : String),
      run_loop g impl d m fuel cur mem inp counts steps path tok lat probs = pr →
      pr.1.paused_at = some p → PausedShape g pr p := by
  intro fuel
  induction fuel with
  | zero =>
      intro cur mem inp counts steps path tok lat probs pr p h hp
      subst h
      simp [run_loop, finish_completed] at hp
  | succ fuel ih =>
      intro cur mem inp counts steps path tok lat probs pr p h hp
      cases hn : get_node g cur with
      | none =>
          simp only [run_loop, hn] at h
          subst h
          simp at hp
      | some node_spec =>
          simp only [run_loop, hn] at h
          split at h
          · exact ih _ _ _ _ _ _ _ _ _ _ _ h hp
          · split at h
            · -- pause branch
              subst h
              simp only at hp
              have hpn : node_spec.id = p := by simpa using hp
              subst hpn
              refine ⟨rfl, by assumption, rfl, ⟨_, rfl⟩, ?_⟩
              simp [get_node_id hn]
            · split at h
              · subst h
                simp [finish_completed] at hp
              · split at h
                · exact ih _ _ _ _ _ _ _ _ _ _ _ h hp
                · split at h
                  · subst h
                    simp [finish_completed] at hp
                  · exact ih _ _ _ _ _ _ _ _ _ _ _ h hp

/-- C2 amended: whenever `GraphExecutor.execute` returns with `paused_at
= some p`, the result has the pause shape — `success = true`, `p` a
pause node last on the path, the run ended `completed` with the memory
snapshot as output, and a session state of exactly the form
`{paused_at: p, resume_from: p ++ "_resume", memory: snapshot,
next_node: null}` — where `resume_from` is the paused node's id suffixed
with `"_resume"` (a resume key, not the node's own id and not
necessarily any node id of the graph). -/
theorem c2_pause_contract (g : GraphSpec) (impl : NodeImpl) (d m : Nat)
    (input_data : PyDict) (session_state : Option PyDict) (p : String)
    (pr : ExecutionResult × RunTrace)
    (h : graph_execute g impl d m input_data session_state = pr)
    (hp : pr.1.paused_at = some p) : PausedShape g pr p := by
  simp only [graph_execute] at h
  split at h
  · subst h
    simp at hp
  · exact run_loop_paused g impl d m _ _ _ _ _ _ _ _ _ _ _ _ h hp

/-- C2 counterexample: pausing at node `P` produces
`resume_from = "P_resume"`, which differs from the paused node's id and
is not the id of any node of the graph — refuting the claim that the
session state's `resume_from` is a node id. -/
theorem c2_resume_key_not_node_id :
    (graph_execute gPause implOk 1 3 [("x", Val.vint 1)] none).1.paused_at = some "P" ∧
    dget (graph_execute gPause implOk 1 3 [("x", Val.vint 1)] none).1.session_state
      "resume_from" = some (Val.vstr "P_resume") ∧
    "P_resume" ≠ "P" ∧
    "P_resume" ∉ gPause.nodes.map NodeSpec.id := by
  refine ⟨rfl, rfl, by decide, by decide⟩

/-- C2 witness: the concrete paused run at `P` has the pause shape. -/
theorem c2_pause_contract_witness :
    PausedShape gPause (graph_execute gPause implOk 1 3 [("x", Val.vint 1)] none) "P" :=
  c2_pause_contract gPause implOk 1 3 [("x", Val.vint 1)] none "P" _ rfl rfl

/-- Reindexing the budget disjunct of the exit shape across one loop
iteration. -/
theorem completed_exit_shift {g : GraphSpec} {pr : ExecutionResult × RunTrace}
    {steps fuel : Nat} (h : CompletedExitShape g pr (steps + 1) fuel) :
    CompletedExitShape g pr steps (fuel + 1) := by
  rcases h with h | h | h
  · exact Or.inl h
  · exact Or.inr (Or.inl h)
  · exact Or.inr (Or.inr (by omega))

/-- Every successful, non-paused `run_loop` outcome exits at a terminal
node, or at a node whose result set no `next_node` and where no outgoing
edge condition matched, or with the step budget exhausted. -/
theorem run_loop_completed (g : GraphSpec) (impl : NodeImpl) (d m : Nat) :
    ∀ (fuel : Nat) (cur : String) (mem inp : PyDict) (counts : String → Nat)
      (steps : Nat) (path : List String) (tok lat : Nat) (probs : List RProblem)
      (pr : ExecutionResult × RunTrace),
      run_loop g impl d m fuel cur mem inp counts steps path tok lat probs = pr →
      pr.1.success = true → pr.1.paused_at = none →
      CompletedExitShape g pr steps fuel := by
  intro fuel
  induction fuel with
  | zero =>
      intro cur mem inp counts steps path tok lat probs pr h _hs _hpn
      subst h
      exact Or.inr (Or.inr (by simp [run_loop, finish_completed]))
  | succ fuel ih =>
      intro cur mem inp counts steps path tok lat probs pr h hs hpn
      cases hn : get_node g cur with
      | none =>
          simp only [run_loop, hn] at h
          subst h
          simp at hs
      | some node_spec =>
          simp only [run_loop, hn] at h
          split at h
          · exact completed_exit_shift (ih _ _ _ _ _ _ _ _ _ _ h hs hpn)
          · split at h
            · -- pause branch contradicts paused_at = none
              subst h
              simp at hpn
            · split at h
              · -- terminal exit
                subst h
                refine Or.inl ⟨cur, ?_, ?_⟩
                · simp [finish_completed]
                · have hcur := get_node_id hn
                  have hterm : node_spec.id ∈ g.terminal_nodes := by assumption
                  exact hcur ▸ hterm
              · split at h
                · exact completed_exit_shift (ih _ _ _ _ _ _ _ _ _ _ h hs hpn)
                · split at h
                  · -- no edge matched
                    subst h
                    have hnext : (impl cur (counts cur) mem).next_node = none := by
                      assumption
                    have hedge : follow_edges g cur (impl cur (counts cur) mem)
                        (dmerge mem (impl cur (counts cur) mem).output) = none := by
                      assumption
                    exact Or.inr (Or.inl ⟨cur, impl cur (counts cur) mem,
                      dmerge mem (impl cur (counts cur) mem).output,
                      by simp [finish_completed], hnext, hedge⟩)
                  · exact completed_exit_shift (ih _ _ _ _ _ _ _ _ _ _ h hs hpn)

/-- C3 amended: a successful, non-paused `GraphExecutor.execute` run ends
at a terminal node **unless** it ended because no outgoing edge condition
matched (with no explicit next node) or because the step budget
`max_steps` was exhausted; in the latter two cases the final path node
need not be terminal. -/
theorem c3_completed_exit_contract (g : GraphSpec) (impl : NodeImpl) (d m : Nat)
    (input_data : PyDict) (session_state : Option PyDict)
    (pr : ExecutionResult × RunTrace)
    (h : graph_execute g impl d m input_data session_state = pr)
    (hs : pr.1.success = true) (hpn : pr.1.paused_at = none) :
    CompletedExitShape g pr 0 g.max_steps := by
  simp only [graph_execute] at h
  split at h
  · subst h
    simp at hs
  · exact run_loop_completed g impl d m _ _ _ _ _ _ _ _ _ _ _ h hs hpn

/-- C3 counterexample: node `A` succeeds and its only outgoing edge is
`on_failure`, so the run ends successfully and unpaused with path
`["A"]` although `A` is not a terminal node — refuting the claim that
every successful non-paused run ends at a terminal node. -/
theorem c3_nonterminal_final_node :
    (graph_execute gNoEdge implOk 1 3 [] none).1.success = true ∧
    (graph_execute gNoEdge implOk 1 3 [] none).1.paused_at = none ∧
    (graph_execute gNoEdge implOk 1 3 [] none).1.path = ["A"] ∧
    "A" ∉ gNoEdge.terminal_nodes := by
  refine ⟨rfl, rfl, rfl, by decide⟩

/-- C3 witness: the concrete no-edge run satisfies the exit trichotomy. -/
theorem c3_completed_exit_witness :
    CompletedExitShape gNoEdge (graph_execute gNoEdge implOk 1 3 [] none) 0
      gNoEdge.max_steps :=
  c3_completed_exit_contract gNoEdge implOk 1 3 [] none _ rfl rfl rfl

/-- A fence cannot start at a character that is not a backtick. -/
theorem fenceHead_cons_ne {c : Char} (hc : c ≠ btick) (t : List Char) :
    fenceHead (c :: t) = false := by
  rcases t with _ | ⟨x, _ | ⟨y, t2⟩⟩ <;> simp [fenceHead, hc]

/-- A fence cannot start where the second character is not a backtick. -/
theorem fenceHead_snd_ne {x : Char} (hx : x ≠ btick) (c : Char) (t : List Char) :
    fenceHead (c :: x :: t) = false := by
  rcases t with _ | ⟨y, t2⟩ <;> simp [fenceHead, hx]

/-- A fence cannot start where the third character is not a backtick. -/
theorem fenceHead_thd_ne {y : Char} (hy : y ≠ btick) (c x : Char) (t : List Char) :
    fenceHead (c :: x :: y :: t) = false := by
  simp [fenceHead, hy]

/-- Decomposing "no fence" on a cons cell. -/
theorem splitFence_cons_none {c : Char} {t : List Char}
    (h : splitFence (c :: t) = none) :
    fenceHead (c :: t) = false ∧ splitFence t = none := by
  by_cases hf : fenceHead (c :: t)
  · simp [splitFence, hf] at h
  · refine ⟨by simpa using hf, ?_⟩
    simpa [splitFence, hf] using h

/-- Appending a non-backtick character preserves fence-freeness. -/
theorem splitFence_append_single {j : List Char} {a : Char} (ha : a ≠ btick)
    (hj : splitFence j = none) : splitFence (j ++ [a]) = none := by
  induction j with
  | nil => simp [splitFence, fenceHead_cons_ne ha]
  | cons c t ih =>
      obtain ⟨hf, ht⟩ := splitFence_cons_none hj
      have hf2 : fenceHead (c :: (t ++ [a])) = false := by
        rcases t with _ | ⟨x, _ | ⟨y, t2⟩⟩
        · simpa using fenceHead_snd_ne ha c []
        · simpa using fenceHead_thd_ne ha c x []
        · simpa [fenceHead] using hf
      simp [splitFence, hf2, ih ht]

/-- Prepending a non-backtick character preserves fence-freeness. -/
theorem splitFence_cons_ne {c : Char} {x : List Char} (hc : c ≠ btick)
    (h : splitFence x = none) : splitFence (c :: x) = none := by
  simp [splitFence, fenceHead_cons_ne hc, h]

/-- Dropping a prefix (with `dropWhile`) preserves fence-freeness. -/
theorem splitFence_dropWhile (p : Char → Bool) {l : List Char}
    (h : splitFence l = none) : splitFence (l.dropWhile p) = none := by
  induction l with
  | nil => simpa using h
  | cons c t ih =>
      obtain ⟨hf, ht⟩ := splitFence_cons_none h
      rw [List.dropWhile_cons]
      by_cases hp : p c
      · simp [hp, ih ht]
      · simpa [hp] using h

/-- A prefix of a fence-free list is fence-free. -/
theorem splitFence_of_append_none {p t : List Char}
    (h : splitFence (p ++ t) = none) : splitFence p = none := by
  induction p with
  | nil => rfl
  | cons c q ih =>
      rw [List.cons_append] at h
      obtain ⟨hf, hq⟩ := splitFence_cons_none h
      have hfq : fenceHead (c :: q) = false := by
        rcases q with _ | ⟨x, _ | ⟨y, q2⟩⟩
        · rfl
        · rfl
        · simpa [fenceHead] using hf
      simp [splitFence, hfq, ih hq]

/-- `dropEndWs` only removes a suffix. -/
theorem dropEndWs_prefix (l : List Char) : ∃ t, dropEndWs l ++ t = l := by
  induction l with
  | nil => exact ⟨[], rfl⟩
  | cons a t ih =>
      obtain ⟨s, hs⟩ := ih
      by_cases he : (dropEndWs t).isEmpty
      · by_cases hw : isWsChar a
        · exact ⟨a :: t, by simp [dropEndWs, he, hw]⟩
        · refine ⟨t, ?_⟩
          simp [dropEndWs, he, hw]
      · refine ⟨s, ?_⟩
        simp [dropEndWs, he]
        exact hs

/-- Stripping whitespace preserves fence-freeness. -/
theorem splitFence_stripChars {l : List Char} (h : splitFence l = none) :
    splitFence (stripChars l) = none := by
  have h1 : splitFence (l.dropWhile isWsChar) = none := splitFence_dropWhile _ h
  obtain ⟨t, ht⟩ := dropEndWs_prefix (l.dropWhile isWsChar)
  exact splitFence_of_append_none (ht ▸ h1)

/-- A list ending in a non-whitespace character keeps all of itself under
`dropEndWs`. -/
theorem dropEndWs_of_getLast {l : List Char} {a : Char}
    (h : l.getLast? = some a) (ha : isWsChar a = false) : dropEndWs l = l := by
  induction l with
  | nil => simp at h
  | cons c t ih =>
      rcases t with _ | ⟨x, t2⟩
      · simp at h
        subst h
        simp [dropEndWs, ha]
      · have hlast : (x :: t2).getLast? = some a := by
          simpa [List.getLast?_cons_cons] using h
        have ht := ih hlast
        have hstep : dropEndWs (c :: x :: t2) =
            if (dropEndWs (x :: t2)).isEmpty then (if isWsChar c then [] else [c])
            else c :: dropEndWs (x :: t2) := rfl
        rw [hstep, ht]
        simp

/-- A trailing whitespace character is removed by `dropEndWs`. -/
theorem dropEndWs_append_ws {a : Char} (ha : isWsChar a = true) (x : List Char) :
    dropEndWs (x ++ [a]) = dropEndWs x := by
  induction x with
  | nil => simp [dropEndWs, ha]
  | cons c t ih =>
      by_cases he : (dropEndWs t).isEmpty
      · simp [dropEndWs, ih, he]
      · simp [dropEndWs, ih, he]

/-- The `json` tag cannot start at a character other than `j`. -/
theorem jsonTagHead_cons_ne {c : Char} (hc : c ≠ 'j') (t : List Char) :
    jsonTagHead (c :: t) = false := by
  rcases t with _ | ⟨a, _ | ⟨b, _ | ⟨d, t3⟩⟩⟩ <;> simp [jsonTagHead, hc]

/-- One-step unfolding of `splitFence`. -/
theorem splitFence_cons (c : Char) (rest : List Char) :
    splitFence (c :: rest) =
      if fenceHead (c :: rest) then some ([], rest.drop 2)
      else (splitFence rest).map (fun pr => (c :: pr.1, pr.2)) := rfl

/-- Scanning a fence-free list (not ending in a backtick) followed by
anything finds only fences of the suffix, with the captures extended. -/
theorem splitFence_append (r : List Char) :
    ∀ (l : List Char), splitFence l = none → l.getLast? ≠ some btick →
      splitFence (l ++ r) = (splitFence r).map (fun pr => (l ++ pr.1, pr.2)) := by
  intro l
  induction l with
  | nil =>
      intro _ _
      cases h : splitFence r <;> simp [h]
  | cons c t ih =>
      intro hl hlast
      obtain ⟨hf, ht⟩ := splitFence_cons_none hl
      rcases t with _ | ⟨x, t2⟩
      · have hc : c ≠ btick := fun hcc => hlast (by simp [hcc])
        rw [List.cons_append, List.nil_append, splitFence_cons]
        rw [fenceHead_cons_ne hc]
        cases splitFence r <;> simp
      · have hlast2 : (x :: t2).getLast? ≠ some btick := by
          simpa [List.getLast?_cons_cons] using hlast
        have hfr : fenceHead (c :: ((x :: t2) ++ r)) = false := by
          rcases t2 with _ | ⟨y, t3⟩
          · have hx : x ≠ btick := fun hxx => hlast (by simp [hxx])
            simpa using fenceHead_snd_ne hx c r
          · simpa [fenceHead] using hf
        rw [List.cons_append, splitFence_cons, hfr]
        simp only [Bool.false_eq_true, if_false]
        rw [ih ht hlast2]
        cases splitFence r <;> simp

/-- A leading triple backtick is the first fence. -/
theorem splitFence_fence (xs : List Char) :
    splitFence (btick :: btick :: btick :: xs) = some ([], xs) := by
  have hf : fenceHead (btick :: btick :: btick :: xs) = true := by
    simp [fenceHead]
  rw [splitFence_cons, hf]
  simp

/-- No fence, no capture. -/
theorem findFences_none {l : List Char} (h : splitFence l = none) :
    findFences l = [] := by
  simp only [findFences, findFencesF, h]

/-- `findFencesF` on the empty list is empty for any fuel. -/
theorem findFencesF_nil (fuel : Nat) : findFencesF fuel [] = [] := by
  cases fuel <;> simp [findFencesF, splitFence]

/-- The body between the fences of a ```json-wrapped fence-free text is
the single capture. -/
theorem findFences_wrapJson {j : List Char} (hnf : splitFence j = none) :
    findFences (wrapJsonFence j) = ['\n' :: (j ++ ['\n'])] := by
  have hmid : splitFence ('\n' :: (j ++ ['\n'])) = none :=
    splitFence_cons_ne (by decide) (splitFence_append_single (by decide) hnf)
  have hlast : ('\n' :: (j ++ ['\n'])).getLast? ≠ some btick := by
    rw [show '\n' :: (j ++ ['\n']) = ('\n' :: j) ++ ['\n'] from by simp]
    rw [List.getLast?_concat]
    simp
    decide
  have hsplit2 : splitFence (('\n' :: (j ++ ['\n'])) ++ [btick, btick, btick]) =
      some ('\n' :: (j ++ ['\n']), []) := by
    rw [splitFence_append [btick, btick, btick] _ hmid hlast]
    rw [show ([btick, btick, btick] : List Char) = btick :: btick :: btick :: [] from rfl,
      splitFence_fence]
    simp
  have hshape : wrapJsonFence j =
      btick :: btick :: btick ::
        ('j' :: 's' :: 'o' :: 'n' :: '\n' :: (j ++ '\n' :: [btick, btick, btick])) := by
    simp [wrapJsonFence]
  rw [findFences, hshape]
  rw [show (btick :: btick :: btick ::
      ('j' :: 's' :: 'o' :: 'n' :: '\n' :: (j ++ '\n' :: [btick, btick, btick]))).length =
      (('j' :: 's' :: 'o' :: 'n' :: '\n' :: (j ++ '\n' :: [btick, btick, btick])).length + 3)
    from by simp]
  rw [show ('j' :: 's' :: 'o' :: 'n' :: '\n' ::
      (j ++ '\n' :: [btick, btick, btick])).length + 3 + 1 =
      (('j' :: 's' :: 'o' :: 'n' :: '\n' :: (j ++ '\n' :: [btick, btick, btick])).length + 3) + 1
    from rfl]
  rw [findFencesF, splitFence_fence]
  have htag : jsonTagHead
      ('j' :: 's' :: 'o' :: 'n' :: '\n' :: (j ++ '\n' :: [btick, btick, btick])) = true := by
    simp [jsonTagHead]
  simp only [htag, if_true]
  rw [show ('j' :: 's' :: 'o' :: 'n' :: '\n' ::
      (j ++ '\n' :: [btick, btick, btick])).drop 4 =
      '\n' :: (j ++ '\n' :: [btick, btick, btick]) from rfl]
  rw [show '\n' :: (j ++ '\n' :: [btick, btick, btick]) =
      ('\n' :: (j ++ ['\n'])) ++ [btick, btick, btick] from by simp]
  rw [hsplit2]
  simp [findFencesF_nil]

/-- The body between the fences of a generic-```-wrapped fence-free text
is the single capture. -/
theorem findFences_wrapPlain {j : List Char} (hnf : splitFence j = none) :
    findFences (wrapPlainFence j) = ['\n' :: (j ++ ['\n'])] := by
  have hmid : splitFence ('\n' :: (j ++ ['\n'])) = none :=
    splitFence_cons_ne (by decide) (splitFence_append_single (by decide) hnf)
  have hlast : ('\n' :: (j ++ ['\n'])).getLast? ≠ some btick := by
    rw [show '\n' :: (j ++ ['\n']) = ('\n' :: j) ++ ['\n'] from by simp]
    rw [List.getLast?_concat]
    simp
    decide
  have hsplit2 : splitFence (('\n' :: (j ++ ['\n'])) ++ [btick, btick, btick]) =
      some ('\n' :: (j ++ ['\n']), []) := by
    rw [splitFence_append [btick, btick, btick] _ hmid hlast]
    rw [show ([btick, btick, btick] : List Char) = btick :: btick :: btick :: [] from rfl,
      splitFence_fence]
    simp
  have hshape : wrapPlainFence j =
      btick :: btick :: btick :: ('\n' :: (j ++ '\n' :: [btick, btick, btick])) := by
    simp [wrapPlainFence]
  rw [findFences, hshape]
  rw [show (btick :: btick :: btick :: ('\n' :: (j ++ '\n' :: [btick, btick, btick]))).length =
      (('\n' :: (j ++ '\n' :: [btick, btick, btick])).length + 3) from by simp]
  rw [show ('\n' :: (j ++ '\n' :: [btick, btick, btick])).length + 3 + 1 =
      (('\n' :: (j ++ '\n' :: [btick, btick, btick])).length + 3) + 1 from rfl]
  rw [findFencesF, splitFence_fence]
  have htag : jsonTagHead ('\n' :: (j ++ '\n' :: [btick, btick, btick])) = false :=
    jsonTagHead_cons_ne (by decide) _
  simp only [htag, Bool.false_eq_true, if_false]
  rw [show '\n' :: (j ++ '\n' :: [btick, btick, btick]) =
      ('\n' :: (j ++ ['\n'])) ++ [btick, btick, btick] from by simp]
  rw [hsplit2]
  simp [findFencesF_nil]

/-- A fence-wrapped text is already stripped (it starts and ends with a
backtick). -/
theorem stripChars_wrapJson (j : List Char) :
    stripChars (wrapJsonFence j) = wrapJsonFence j := by
  unfold stripChars
  have h1 : (wrapJsonFence j).dropWhile isWsChar = wrapJsonFence j := by
    rw [show wrapJsonFence j = btick ::
        ([btick, btick, 'j', 's', 'o', 'n', '\n'] ++ j ++ ('\n' :: [btick, btick, btick]))
      from by simp [wrapJsonFence]]
    rw [List.dropWhile_cons]
    simp [show isWsChar btick = false from by decide]
  rw [h1]
  apply dropEndWs_of_getLast (a := btick)
  · rw [show wrapJsonFence j =
        ([btick, btick, btick, 'j', 's', 'o', 'n', '\n'] ++ j ++ ['\n', btick, btick]) ++ [btick]
      from by simp [wrapJsonFence]]
    exact List.getLast?_concat _
  · rfl

/-- Same for the generic fence. -/
theorem stripChars_wrapPlain (j : List Char) :
    stripChars (wrapPlainFence j) = wrapPlainFence j := by
  unfold stripChars
  have h1 : (wrapPlainFence j).dropWhile isWsChar = wrapPlainFence j := by
    rw [show wrapPlainFence j = btick ::
        ([btick, btick, '\n'] ++ j ++ ('\n' :: [btick, btick, btick]))
      from by simp [wrapPlainFence]]
    rw [List.dropWhile_cons]
    simp [show isWsChar btick = false from by decide]
  rw [h1]
  apply dropEndWs_of_getLast (a := btick)
  · rw [show wrapPlainFence j =
        ([btick, btick, btick, '\n'] ++ j ++ ['\n', btick, btick]) ++ [btick]
      from by simp [wrapPlainFence]]
    exact List.getLast?_concat _
  · rfl

/-- Stripping the capture (the body with its surrounding newlines) gives
the stripped original text. -/
theorem stripChars_capture (j : List Char) :
    stripChars ('\n' :: (j ++ ['\n'])) = stripChars j := by
  unfold stripChars
  rw [List.dropWhile_cons]
  simp only [show isWsChar '\n' = true from rfl, if_true]
  rw [List.dropWhile_append]
  by_cases he : (j.dropWhile isWsChar).isEmpty
  · simp only [he, if_true]
    rw [List.isEmpty_iff.mp he]
    rfl
  · simp only [he, Bool.false_eq_true, if_false]
    exact dropEndWs_append_ws (a := '\n') (by decide) _

/-- C8 amended: for every string `j` that contains no triple-backtick
fence and whose stripped form parses as JSON, `parse_llm_json_response`
returns the same parsed value whether given `j` bare, wrapped in a
```json fenced code block, or wrapped in a generic ``` fenced code
block.  (Without the no-fence proviso the property fails, see the
counterexample.) -/
theorem c8_fence_invariance (j : List Char) (v : Val)
    (hnf : splitFence j = none) (hv : jloads (stripChars j) = some v) :
    (parse_llm_json_response_l j).1 = some v ∧
    (parse_llm_json_response_l (wrapJsonFence j)).1 = some v ∧
    (parse_llm_json_response_l (wrapPlainFence j)).1 = some v := by
  refine ⟨?_, ?_, ?_⟩
  · simp only [parse_llm_json_response_l]
    rw [findFences_none (splitFence_stripChars hnf)]
    simp [tryFenced, hv]
  · simp only [parse_llm_json_response_l]
    rw [stripChars_wrapJson, findFences_wrapJson hnf]
    simp [tryFenced, stripChars_capture, hv]
  · simp only [parse_llm_json_response_l]
    rw [stripChars_wrapPlain, findFences_wrapPlain hnf]
    simp [tryFenced, stripChars_capture, hv]

/-- C8 witness: for the JSON document `[1, 2]` the three forms parse to
the same value. -/
theorem c8_fence_invariance_witness :
    (parse_llm_json_response_l "[1, 2]".toList).1 =
      some (Val.vlist [Val.vint 1, Val.vint 2]) ∧
    (parse_llm_json_response_l (wrapJsonFence "[1, 2]".toList)).1 =
      some (Val.vlist [Val.vint 1, Val.vint 2]) ∧
    (parse_llm_json_response_l (wrapPlainFence "[1, 2]".toList)).1 =
      some (Val.vlist [Val.vint 1, Val.vint 2]) :=
  c8_fence_invariance "[1, 2]".toList (Val.vlist [Val.vint 1, Val.vint 2]) rfl rfl

/-- C8 counterexample: the JSON document `"```"` (a string containing a
code fence) parses bare to the string of three backticks, but wrapped in
a ```json fenced block `parse_llm_json_response` extracts a spurious
capture and returns no parsed value — so the bare and fenced forms do
not agree. -/
theorem c8_fence_changes_value :
    (parse_llm_json_response_l bareTickJson).1 = some (Val.vstr "```") ∧
    (parse_llm_json_response_l (wrapJsonFence bareTickJson)).1 = none := by
  constructor <;> rfl
